import Mathlib

/-!
Verification of the scenario state machine and session-memory model of the
agentic-hr repository.

The development shallowly embeds:
  * the rule-based slot extractors of `scenario_payroll.py` (period, scope,
    pay date, confirmation, intent), including a small executable model of
    the Python regular-expression searches they perform;
  * the `PayrollScenario` stage handlers and `route_and_handle` router of
    `scenario_payroll.py`, with the session memory store;
  * the RPC orchestrator `rpc_run` of `app_hr_sql.py` together with its own
    slot extractors and the read-only query side channel
    `rpc_answer_query_from_refs`.

External collaborators (the text-to-SQL engine and the database executor)
are modelled as oracles: the engine is a function from the issued call to a
response record `{result, error}`, and the database executor is a function
from the issued query to the parsed result value.  Result values are
modelled as already-parsed Python values (`PyVal`); result rows that the
Python code receives as printed strings are represented by the value the
string denotes.  Replies built by string interpolation in the source are
represented by one constructor per return site, carrying exactly the values
interpolated at that site.  Each handler additionally reports the list of
external calls it issued, which instruments the `sql_engine.run` /
`exec_sql` invocations of the source.
-/

namespace Re

/-- Python `\w` (word character) restricted to the alphabets that occur in
this code base: ASCII alphanumerics, underscore, Hangul syllables and
Hangul compatibility jamo. -/
def isWordChar (c : Char) : Bool :=
  c.isAlphanum || c = '_' ||
  (0xAC00 ≤ c.toNat && c.toNat ≤ 0xD7A3) ||
  (0x3131 ≤ c.toNat && c.toNat ≤ 0x318E)

/-- Python `\s` whitespace. -/
def isSpaceChar (c : Char) : Bool :=
  c = ' ' || c = '\t' || c = '\n' || c = '\r' || c = '\x0b' || c = '\x0c'

/-- Word boundary `\b` between an optional previous and next character. -/
def boundary (prev next : Option Char) : Bool :=
  (prev.elim false isWordChar) != (next.elim false isWordChar)

/-- A simple regex item: a single character class, an optional/greedy
repetition of one, or a word boundary. -/
inductive SItem where
  | tok (p : Char → Bool)
  | opt (p : Char → Bool)
  | many (p : Char → Bool)
  | many1 (p : Char → Bool)
  | rep (lo hi : Nat) (p : Char → Bool)
  | bnd

/-- Length of the maximal prefix whose characters satisfy `p`. -/
def takeCount (p : Char → Bool) : List Char → Nat
  | [] => 0
  | c :: cs => if p c then takeCount p cs + 1 else 0

/-- Candidate consumption lengths of one item at the current position, in
backtracking priority order (greedy: longest first). -/
def itemLens (it : SItem) (prev : Option Char) (input : List Char) : List Nat :=
  match it with
  | .tok p => match input with
    | [] => []
    | c :: _ => if p c then [1] else []
  | .opt p => match input with
    | [] => [0]
    | c :: _ => if p c then [1, 0] else [0]
  | .many p =>
      let n := takeCount p input
      (List.range (n + 1)).map (fun i => n - i)
  | .many1 p =>
      let n := takeCount p input
      (List.range n).map (fun i => n - i)
  | .rep lo hi p =>
      let n := min (takeCount p input) hi
      if n < lo then [] else (List.range (n - lo + 1)).map (fun i => n - i)
  | .bnd => if boundary prev input.head? then [0] else []

/-- All ways a simple sequence can match a prefix of the input, as
`(consumed, new previous char, remaining)`, in priority order. -/
def simpleMatches : List SItem → Option Char → List Char →
    List (List Char × Option Char × List Char)
  | [], prev, input => [([], prev, input)]
  | it :: rest, prev, input =>
      (itemLens it prev input).flatMap (fun k =>
        let consumed := input.take k
        let prev' := if k = 0 then prev else consumed.getLast?
        (simpleMatches rest prev' (input.drop k)).map
          (fun x => (consumed ++ x.1, x.2.1, x.2.2)))

/-- A pattern item: either one simple item or a capture group whose body is
an ordered alternation of simple sequences. -/
inductive RItem where
  | one (it : SItem)
  | grp (alts : List (List SItem))

/-- Match a pattern at the current position, returning the captured groups
in order.  Backtracking follows Python `re` priorities: alternatives in
declaration order, quantifiers greedy. -/
def matchItems : List RItem → Option Char → List Char → Option (List String)
  | [], _, _ => some []
  | .one it :: rest, prev, input =>
      (simpleMatches [it] prev input).findSome? (fun x =>
        matchItems rest x.2.1 x.2.2)
  | .grp alts :: rest, prev, input =>
      alts.findSome? (fun alt =>
        (simpleMatches alt prev input).findSome? (fun x =>
          (matchItems rest x.2.1 x.2.2).map (fun caps => String.mk x.1 :: caps)))

/-- `re.search`: try to match at each position, leftmost first. -/
def searchAux (pat : List RItem) : Option Char → List Char → Option (List String)
  | prev, [] => matchItems pat prev []
  | prev, c :: cs =>
    match matchItems pat prev (c :: cs) with
    | some caps => some caps
    | none => searchAux pat (some c) cs

def reSearch (pat : List RItem) (s : String) : Option (List String) :=
  searchAux pat none s.toList

def reTest (pat : List RItem) (s : String) : Bool :=
  (reSearch pat s).isSome

/-- Does any of the alternative patterns match somewhere in the text?
(For a pure match test, the leftmost-alternation order of `re` does not
change the answer.) -/
def reTestAny (pats : List (List RItem)) (s : String) : Bool :=
  pats.any (fun p => reTest p s)

/-- A literal string as a simple sequence. -/
def lits (s : String) : List SItem :=
  s.toList.map (fun c => SItem.tok (fun d => d = c))

/-- A literal string as a pattern. -/
def litPat (s : String) : List RItem :=
  (lits s).map RItem.one

/-- Python `str.strip()`. -/
def pyStrip (s : String) : String :=
  String.mk (((s.toList.dropWhile isSpaceChar).reverse.dropWhile isSpaceChar).reverse)

/-- Decimal digits of a capture to a `Nat` (`int(...)` on a digit string). -/
def parseNat (s : String) : Nat :=
  s.toList.foldl (fun acc c => acc * 10 + (c.toNat - '0'.toNat)) 0

/-- `f"{n:02d}"`. -/
def pad2 (n : Nat) : String :=
  if n < 10 then "0" ++ toString n else toString n

/-- `f"{n:04d}"` for the year values that occur here. -/
def pad4 (n : Nat) : String :=
  if n < 10 then "000" ++ toString n
  else if n < 100 then "00" ++ toString n
  else if n < 1000 then "0" ++ toString n
  else toString n

end Re

/-- A parsed Python value, as delivered by the SQL executor after the host
normalises the wire format.  Decimal-fraction (float) tokens do not occur
in the properties below; where the source could produce one it is kept as
its `str` token. -/
inductive PyVal where
  | int (n : Int)
  | str (v : String)
  | boolv (b : Bool)
  | nonev
  | tup (xs : List PyVal)
  | lst (xs : List PyVal)
  | dict (xs : List (String × PyVal))

/-- `isinstance(v, (list, tuple))`, returning the items. -/
def seqItems : PyVal → Option (List PyVal)
  | .tup xs => some xs
  | .lst xs => some xs
  | _ => none

/-- Python truthiness of a value. -/
def pyTruthy : PyVal → Bool
  | .int n => n ≠ 0
  | .str v => v ≠ ""
  | .boolv b => b
  | .nonev => false
  | .tup xs => !xs.isEmpty
  | .lst xs => !xs.isEmpty
  | .dict xs => !xs.isEmpty

/-- Python `str(v)` for the scalar values this code converts. -/
def pyStr : PyVal → String
  | .int n => toString n
  | .str v => v
  | .boolv b => if b then "True" else "False"
  | .nonev => "None"
  | .tup _ => "<tuple>"
  | .lst _ => "<list>"
  | .dict _ => "<dict>"

/-- `d.get(k)` on a Python dict value. -/
def pyDictGet (xs : List (String × PyVal)) (k : String) : Option PyVal :=
  (xs.find? (fun kv => kv.1 = k)).map (fun kv => kv.2)

namespace PyDict

/-- `d.get(k)` for a string-keyed dictionary. -/
def get {α : Type} (d : List (String × α)) (k : String) : Option α :=
  (d.find? (fun kv => kv.1 = k)).map (fun kv => kv.2)

/-- `d[k] = v`: overwrite in place or append. -/
def set {α : Type} (d : List (String × α)) (k : String) (v : α) :
    List (String × α) :=
  if (d.find? (fun kv => kv.1 = k)).isSome then
    d.map (fun kv => if kv.1 = k then (kv.1, v) else kv)
  else d ++ [(k, v)]

/-- `del d[k]`. -/
def erase {α : Type} (d : List (String × α)) (k : String) :
    List (String × α) :=
  d.filter (fun kv => kv.1 ≠ k)

end PyDict

namespace ScenarioPayroll

open Re

/-- Reference date fixed in the source: `TODAY = date(2026, 1, 8)`. -/
def TODAY_YEAR : Nat := 2026
def TODAY_MONTH : Nat := 1

def digit19 (c : Char) : Bool := '1' ≤ c && c ≤ '9'
def digit02 (c : Char) : Bool := '0' ≤ c && c ≤ '2'
def isDigitCh (c : Char) : Bool := c.isDigit
def sepCls (c : Char) : Bool := c = '-' || c = '.' || c = '/'
def hangulSyl (c : Char) : Bool := 0xAC00 ≤ c.toNat && c.toNat ≤ 0xD7A3
def wordKo (c : Char) : Bool := hangulSyl c || c.isAlphanum || c = '_'

/-- `(20\d{2})` -/
def yearSeq : List SItem :=
  [.tok (fun c => c = '2'), .tok (fun c => c = '0'), .tok isDigitCh, .tok isDigitCh]

/-- `(0?[1-9]|1[0-2])` -/
def monthAlts : List (List SItem) :=
  [[.opt (fun c => c = '0'), .tok digit19],
   [.tok (fun c => c = '1'), .tok digit02]]

/-- `(0?[1-9]|[12]\d|3[01])` -/
def dayAlts : List (List SItem) :=
  [[.opt (fun c => c = '0'), .tok digit19],
   [.tok (fun c => c = '1' || c = '2'), .tok isDigitCh],
   [.tok (fun c => c = '3'), .tok (fun c => c = '0' || c = '1')]]

/-- `\b(20\d{2})[-./](0?[1-9]|1[0-2])\b` -/
def patYyyyMm : List RItem :=
  [.one .bnd, .grp [yearSeq], .one (.tok sepCls), .grp monthAlts, .one .bnd]

/-- `\b(20\d{2})\s*년\s*(0?[1-9]|1[0-2])\s*월\b` -/
def patYearKorMonth : List RItem :=
  [.one .bnd, .grp [yearSeq], .one (.many isSpaceChar),
   .one (.tok (fun c => c = '년')), .one (.many isSpaceChar),
   .grp monthAlts, .one (.many isSpaceChar),
   .one (.tok (fun c => c = '월')), .one .bnd]

/-- `\b(0?[1-9]|1[0-2])\s*월\b` -/
def patBareMonth : List RItem :=
  [.one .bnd, .grp monthAlts, .one (.many isSpaceChar),
   .one (.tok (fun c => c = '월')), .one .bnd]

/-- `(이번\s*달|당월|이번달)` -/
def patsThisMonth : List (List RItem) :=
  [(lits "이번" ++ [SItem.many isSpaceChar] ++ lits "달").map RItem.one,
   litPat "당월", litPat "이번달"]

/-- `(지난\s*달|전월|지난달)` -/
def patsLastMonth : List (List RItem) :=
  [(lits "지난" ++ [SItem.many isSpaceChar] ++ lits "달").map RItem.one,
   litPat "전월", litPat "지난달"]

/-- `_extract_period` of `scenario_payroll.py`. -/
def extract_period (text : String) : Option String :=
  let t := pyStrip text
  match reSearch patYyyyMm t with
  | some (y :: mm :: _) => some (y ++ "-" ++ pad2 (parseNat mm))
  | _ =>
  match reSearch patYearKorMonth t with
  | some (y :: mm :: _) => some (y ++ "-" ++ pad2 (parseNat mm))
  | _ =>
  match reSearch patBareMonth t with
  | some (mm :: _) => some (toString TODAY_YEAR ++ "-" ++ pad2 (parseNat mm))
  | _ =>
  if reTestAny patsThisMonth t then
    some (toString TODAY_YEAR ++ "-" ++ pad2 TODAY_MONTH)
  else if reTestAny patsLastMonth t then
    let y := TODAY_YEAR
    let mth := TODAY_MONTH - 1
    let p := if mth = 0 then (y - 1, 12) else (y, mth)
    some (toString p.1 ++ "-" ++ pad2 p.2)
  else
    none

/-- `(전\s*직원|전체\s*직원|전체|전사|모두)` -/
def patsScopeAll : List (List RItem) :=
  [(lits "전" ++ [SItem.many isSpaceChar] ++ lits "직원").map RItem.one,
   (lits "전체" ++ [SItem.many isSpaceChar] ++ lits "직원").map RItem.one,
   litPat "전체", litPat "전사", litPat "모두"]

/-- `\b([가-힣A-Za-z0-9_]+)\s*(부|팀)\b` -/
def patDept : List RItem :=
  [.one .bnd, .grp [[.many1 wordKo]], .one (.many isSpaceChar),
   .grp [[.tok (fun c => c = '부')], [.tok (fun c => c = '팀')]], .one .bnd]

/-- `\b([가-힣]{2,4})\b` -/
def patKoName : List RItem :=
  [.one .bnd, .grp [[.rep 2 4 hangulSyl]], .one .bnd]

/-- `(급여|세금|지급|전표|이번|지난|월|년|공제)` (denylist for name capture). -/
def patsNameDeny : List (List RItem) :=
  [litPat "급여", litPat "세금", litPat "지급", litPat "전표", litPat "이번",
   litPat "지난", litPat "월", litPat "년", litPat "공제"]

/-- `_extract_employee_scope` of `scenario_payroll.py`. -/
def extract_employee_scope (text : String) : Option String :=
  let t := pyStrip text
  if reTestAny patsScopeAll t then some "ALL"
  else
  match reSearch patDept t with
  | some (g1 :: g2 :: _) => some ("dept:" ++ g1 ++ g2)
  | _ =>
  match reSearch patKoName t with
  | some (g1 :: _) =>
      if reTestAny patsNameDeny g1 then none else some ("emp:" ++ g1)
  | _ => none

/-- `\b(20\d{2})[-./](0?[1-9]|1[0-2])[-./](0?[1-9]|[12]\d|3[01])\b` -/
def patFullDate : List RItem :=
  [.one .bnd, .grp [yearSeq], .one (.tok sepCls), .grp monthAlts,
   .one (.tok sepCls), .grp dayAlts, .one .bnd]

/-- `\b(0?[1-9]|[12]\d|3[01])\s*일\b` -/
def patDayOnly : List RItem :=
  [.one .bnd, .grp dayAlts, .one (.many isSpaceChar),
   .one (.tok (fun c => c = '일')), .one .bnd]

/-- `(지급|이체|송금)` -/
def patsPaymentWords : List (List RItem) :=
  [litPat "지급", litPat "이체", litPat "송금"]

/-- `_extract_pay_date` of `scenario_payroll.py`. -/
def extract_pay_date (text : String) : Option String :=
  let t := pyStrip text
  match reSearch patFullDate t with
  | some (y :: mm :: dd :: _) =>
      some (toString (parseNat y) ++ "-" ++ pad2 (parseNat mm) ++ "-" ++
            pad2 (parseNat dd))
  | _ =>
  match reSearch patDayOnly t with
  | some (dd :: _) =>
      if reTestAny patsPaymentWords t then
        some ("__DAY__:" ++ toString (parseNat dd))
      else none
  | _ => none

/-- ASCII lower-casing (the `re.IGNORECASE` flag only affects the ASCII
alternatives of the confirmation patterns). -/
def asciiLower (s : String) : String :=
  String.mk (s.toList.map (fun c =>
    if 'A' ≤ c && c ≤ 'Z' then Char.ofNat (c.toNat + 32) else c))

/-- `_extract_confirm`: `re.fullmatch` of exact affirmative/negative tokens,
case-insensitively (only the ASCII alternatives are case-sensitive). -/
def extract_confirm (text : String) : Option Bool :=
  let t := asciiLower (pyStrip text)
  if t ∈ ["예", "네", "응", "진행", "실행", "확정", "ok", "ㅇㅋ"] then some true
  else if t ∈ ["아니오", "아니", "취소", "중단", "no", "ㄴㄴ"] then some false
  else none

/-- `(급여|급여처리|급여\s*계산|급여\s*산정)` -/
def patsIntentPayroll : List (List RItem) :=
  [litPat "급여", litPat "급여처리",
   (lits "급여" ++ [SItem.many isSpaceChar] ++ lits "계산").map RItem.one,
   (lits "급여" ++ [SItem.many isSpaceChar] ++ lits "산정").map RItem.one]

/-- `(세금|원천세|4대보험|보험료|공제|공제금액)` -/
def patsIntentTax : List (List RItem) :=
  [litPat "세금", litPat "원천세", litPat "4대보험", litPat "보험료",
   litPat "공제", litPat "공제금액"]

/-- `(전표|분개|전기|회계)` -/
def patsIntentJournal : List (List RItem) :=
  [litPat "전표", litPat "분개", litPat "전기", litPat "회계"]

/-- `(취소|종료|그만|중단|처음부터|리셋|초기화)` -/
def patsIntentExit : List (List RItem) :=
  [litPat "취소", litPat "종료", litPat "그만", litPat "중단",
   litPat "처음부터", litPat "리셋", litPat "초기화"]

/-- A slot value: the extractor dictionary stores strings and (for
`confirm`) booleans. -/
inductive SlotVal where
  | s (v : String)
  | b (v : Bool)
deriving DecidableEq, Repr

/-- Dictionary lookup. -/
def slotsGet (slots : List (String × SlotVal)) (k : String) : Option SlotVal :=
  PyDict.get slots k

/-- Dictionary assignment (`d[k] = v`). -/
def slotsSet (slots : List (String × SlotVal)) (k : String) (v : SlotVal) :
    List (String × SlotVal) :=
  PyDict.set slots k v

/-- Python truthiness test used by `ctx.slots.get(k)` guards: a missing
key, an empty string and `False` are all falsy. -/
def slotFalsy : Option SlotVal → Bool
  | none => true
  | some (.s v) => v = ""
  | some (.b v) => !v

/-- `extract_slots` of `scenario_payroll.py`: the slot dictionary built in
source order, intent flags overwriting each other in declaration order. -/
def extract_slots (text : String) : List (String × SlotVal) :=
  let slots : List (String × SlotVal) := []
  let slots := match extract_period text with
    | some p => slotsSet slots "period" (.s p)
    | none => slots
  let slots := match extract_employee_scope text with
    | some sc => slotsSet slots "employee_scope" (.s sc)
    | none => slots
  let slots := match extract_pay_date text with
    | some pd => slotsSet slots "pay_date" (.s pd)
    | none => slots
  let slots := match extract_confirm text with
    | some c => slotsSet slots "confirm" (.b c)
    | none => slots
  let slots := if reTestAny patsIntentPayroll text then
    slotsSet slots "intent" (.s "PAYROLL") else slots
  let slots := if reTestAny patsIntentTax text then
    slotsSet slots "intent" (.s "TAX") else slots
  let slots := if reTestAny patsPaymentWords text then
    slotsSet slots "intent" (.s "PAYMENT") else slots
  let slots := if reTestAny patsIntentJournal text then
    slotsSet slots "intent" (.s "JOURNAL") else slots
  let slots := if reTestAny patsIntentExit text then
    slotsSet slots "intent" (.s "EXIT") else slots
  slots

/-- Stage identifiers of `scenario_payroll.py`. -/
def STATE_PAYROLL_CALC : String := "PAYROLL_CALC"
def STATE_TAX_CALC : String := "TAX_CALC"
def STATE_PAYMENT_RUN : String := "PAYMENT_RUN"
def STATE_JOURNAL_POST : String := "JOURNAL_POST"
def STATE_DONE : String := "DONE"
def ACTIVE_SCENARIO : String := "PAYROLL_E2E"

/-- The response record of `HRTextToSQLEngine.run` (`HR_sql_ai.py`): either
a `result` or an `error`, plus the generated SQL text. -/
structure EngineRes where
  fixed_sql : String := ""
  result : Option PyVal := none
  error : Option String := none

/-- One entry of `ctx.history`. -/
structure HistEntry where
  state : String
  summary : String
  ref : String
deriving DecidableEq, Repr

/-- `ctx.refs`: the run identifiers written by completed stages plus the
most recent raw artifacts. -/
structure Refs where
  payroll_run_id : Option String := none
  tax_run_id : Option String := none
  payment_run_id : Option String := none
  journal_run_id : Option String := none
  artifacts : Option EngineRes := none

/-- `ScenarioContext` of `scenario_payroll.py`. -/
structure ScenarioContext where
  active_scenario : String := ""
  state : String := ""
  slots : List (String × SlotVal) := []
  refs : Refs := {}
  history : List HistEntry := []

/-- The questions sent to `sql_engine.run`, one constructor per call site,
carrying the parameters interpolated into the question text. -/
inductive EngCall where
  | payrollCalc (period scope calc_mode : String)
  | taxVerify (period : String)
  | paymentRun (period pay_date tax_run_id : String)
  | journalPost (period payment_run_id journal_date coa : String)
deriving DecidableEq, Repr

/-- The replies of the stage handlers, one constructor per return site,
carrying the values interpolated into the reply text at that site. -/
inductive Reply where
  | payrollNeedSlots (missing : List String)
  | payrollSuccess (employee_count total_gross total_deductions missing_cnt : PyVal)
  | payrollUninterpretable (expected_cols : Nat)
  | taxNeedPeriod
  | taxNeedPayroll
  | taxSuccess (employee_count gross deductions net_pay rate zero_cnt : PyVal)
  | taxUninterpretable (expected_cols : Nat)
  | paymentNeedPeriod
  | paymentNeedTax
  | paymentNeedPayDate
  | paymentConfirmPrompt (period tax_run_id pay_date method : String)
  | paymentCancelled
  | paymentDone (payment_run_id : String)
  | journalNeedPeriod
  | journalNeedPayment
  | journalNeedDate
  | journalConfirmPrompt (period payment_run_id journal_date coa : String)
  | journalCancelled
  | journalDone (journal_run_id : String)
  | doneSummary (period scope : Option SlotVal)
      (payroll_run_id tax_run_id payment_run_id journal_run_id : Option String)
  | exitScenario

/-- The outcome dictionary returned by the router / handlers. -/
structure TurnOut where
  handled : Bool := true
  reply : Option Reply := none
  state : Option String := none
  suggestions : List String := []
  artifacts : Option EngineRes := none

/-- String content of a slot value (used only under presence guards). -/
def slotStr : Option SlotVal → String
  | some (.s v) => v
  | some (.b v) => if v then "True" else "False"
  | none => ""

/-- Truthiness of a ref (`not ctx.refs.get(k)`): missing or empty. -/
def refFalsy (r : Option String) : Bool := r.getD "" = ""

/-- `_require`: the keys whose slot value is missing/falsy, with the
all-present flag. -/
def requireSlots (ctx : ScenarioContext) (keys : List String) :
    Bool × List String :=
  let missing := keys.filter (fun k => slotFalsy (slotsGet ctx.slots k))
  (missing.isEmpty, missing)

/-- `_make_run_id` with the generated uuid hex chunk passed in. -/
def make_run_id (pre period hexId : String) : String :=
  pre ++ "_" ++ String.mk (period.toList.filter (fun c => c ≠ '-')) ++ "_" ++ hexId

/-- Numeric-token fallback of `_to_rows` (`re.findall(r"-?\d+(?:\.\d+)?", s)`);
integer tokens become `int`s, fraction tokens stay symbolic. -/
def numTokens (fuel : Nat) (cs : List Char) : List PyVal :=
  match fuel with
  | 0 => []
  | fuel + 1 =>
    match cs with
    | [] => []
    | c :: rest =>
      let startsNum :=
        c.isDigit || (c = '-' && (rest.head?.map Char.isDigit).getD false)
      if startsNum then
        let sign := if c = '-' then "-" else ""
        let body := if c = '-' then rest else c :: rest
        let ds := body.takeWhile Char.isDigit
        let r1 := body.drop ds.length
        let hasFrac :=
          (r1.head? = some '.') && ((r1.drop 1).head?.map Char.isDigit).getD false
        if hasFrac then
          let fs := (r1.drop 1).takeWhile Char.isDigit
          let tok := sign ++ String.mk ds ++ "." ++ String.mk fs
          PyVal.str tok :: numTokens fuel (r1.drop (1 + fs.length))
        else
          let n : Int := (Int.ofNat (parseNat (String.mk ds)))
          PyVal.int (if c = '-' then -n else n) :: numTokens fuel r1
      else numTokens fuel rest

/-- `_to_rows` of `scenario_payroll.py`, on parsed values: a string result
stands for the value its text denotes, so a `str` here is a result the
`literal_eval` branch could not parse and goes through the numeric-token
fallback. -/
def to_rows : Option PyVal → List PyVal
  | none => []
  | some (.lst xs) => xs
  | some (.tup xs) => xs
  | some (.str s) =>
      match numTokens (s.toList.length + 1) s.toList with
      | [] => []
      | ns => [PyVal.tup ns]
  | some v => [v]

/-- List-of-chars split on a separator (`str.split`). -/
def splitOnCh (sep : Char) : List Char → List (List Char)
  | [] => [[]]
  | c :: cs =>
    match splitOnCh sep cs with
    | [] => [[]]
    | h :: t => if c = sep then [] :: h :: t else (c :: h) :: t

/-- `s.startswith(pre)` without relying on `String` internals. -/
def strStarts (s pre : String) : Bool :=
  s.toList.take pre.toList.length = pre.toList

/-- `_normalize_slots`: resolve a day-only pay date against the period. -/
def normalize_slots (ctx : ScenarioContext) : ScenarioContext :=
  match slotsGet ctx.slots "pay_date" with
  | some (.s pd) =>
    if strStarts pd "__DAY__:" then
      if (slotsGet ctx.slots "period").isSome then
        let day := parseNat (String.mk (pd.toList.drop 8))
        let parts := splitOnCh '-' (slotStr (slotsGet ctx.slots "period")).toList
        let y := parseNat (String.mk (parts.getD 0 []))
        let m := parseNat (String.mk (parts.getD 1 []))
        let newDate := pad4 y ++ "-" ++ pad2 m ++ "-" ++ pad2 day
        { ctx with slots := slotsSet ctx.slots "pay_date" (.s newDate) }
      else ctx
    else ctx
  | _ => ctx

/-- STATE 1: `_state_payroll_calc`. -/
def state_payroll_calc (ctx : ScenarioContext) (engine : EngCall → EngineRes)
    (hexId : String) : ScenarioContext × TurnOut × List EngCall :=
  let req := requireSlots ctx ["period", "employee_scope"]
  if !req.1 then
    (ctx, { reply := some (.payrollNeedSlots req.2), state := some ctx.state,
            suggestions := ["2026-01 전 직원 급여 산정", "이번달 전 직원 급여 산정"] }, [])
  else
    let period := slotStr (slotsGet ctx.slots "period")
    let scope := slotStr (slotsGet ctx.slots "employee_scope")
    let calc_mode := if slotFalsy (slotsGet ctx.slots "calc_mode") then "preview"
      else slotStr (slotsGet ctx.slots "calc_mode")
    let q := EngCall.payrollCalc period scope calc_mode
    let res := engine q
    let payroll_run_id := make_run_id "PR" period hexId
    let newRefs := { ctx.refs with artifacts := some res, payroll_run_id := some payroll_run_id }
    let newHist := ctx.history ++ [⟨STATE_PAYROLL_CALC, "급여 산정 조회 실행", payroll_run_id⟩]
    let ctx := { ctx with refs := newRefs, history := newHist, state := STATE_TAX_CALC }
    let rows := to_rows res.result
    let reply := match rows.head? with
      | some r =>
        match seqItems r with
        | some xs =>
          if 4 ≤ xs.length then
            Reply.payrollSuccess (xs.getD 0 .nonev) (xs.getD 1 .nonev)
              (xs.getD 2 .nonev) (xs.getD 3 .nonev)
          else Reply.payrollUninterpretable 4
        | none => Reply.payrollUninterpretable 4
      | none => Reply.payrollUninterpretable 4
    (ctx, { reply := some reply, state := some ctx.state, artifacts := some res,
            suggestions := ["공제 검증 진행", "대상/기간 변경", "취소(시나리오 종료)"] }, [q])

/-- STATE 2: `_state_tax_calc`. -/
def state_tax_calc (ctx : ScenarioContext) (engine : EngCall → EngineRes)
    (hexId : String) : ScenarioContext × TurnOut × List EngCall :=
  let req := requireSlots ctx ["period"]
  if !req.1 then
    (ctx, { reply := some .taxNeedPeriod, state := some ctx.state,
            suggestions := ["이번달 공제 검증", "2026-01 공제 검증"] }, [])
  else
    let period := slotStr (slotsGet ctx.slots "period")
    if refFalsy ctx.refs.payroll_run_id then
      let ctx := { ctx with state := STATE_PAYROLL_CALC }
      (ctx, { reply := some .taxNeedPayroll, state := some ctx.state,
              suggestions := ["2026-01 전 직원 급여 산정", "이번달 전 직원 급여 산정"] }, [])
    else
      let q := EngCall.taxVerify period
      let res := engine q
      let tax_run_id := make_run_id "TX" period hexId
      let newRefs := { ctx.refs with artifacts := some res, tax_run_id := some tax_run_id }
      let newHist := ctx.history ++ [⟨STATE_TAX_CALC, "공제 검증 조회 실행", tax_run_id⟩]
      let ctx := { ctx with refs := newRefs, history := newHist, state := STATE_PAYMENT_RUN }
      let rows := to_rows res.result
      let reply := match rows.head? with
        | some r =>
          match seqItems r with
          | some xs =>
            if 6 ≤ xs.length then
              Reply.taxSuccess (xs.getD 0 .nonev) (xs.getD 1 .nonev)
                (xs.getD 2 .nonev) (xs.getD 3 .nonev) (xs.getD 4 .nonev)
                (xs.getD 5 .nonev)
            else Reply.taxUninterpretable 6
          | none => Reply.taxUninterpretable 6
        | none => Reply.taxUninterpretable 6
      (ctx, { reply := some reply, state := some ctx.state, artifacts := some res,
              suggestions := ["지급 진행", "2026-01-25 지급", "지급일 미정"] }, [q])

/-- STATE 3: `_state_payment_run`. -/
def state_payment_run (ctx : ScenarioContext) (engine : EngCall → EngineRes)
    (hexId : String) (confirm : Option Bool) :
    ScenarioContext × TurnOut × List EngCall :=
  let req := requireSlots ctx ["period"]
  if !req.1 then
    (ctx, { reply := some .paymentNeedPeriod, state := some ctx.state,
            suggestions := ["이번달 지급", "2026-01 지급"] }, [])
  else
    let period := slotStr (slotsGet ctx.slots "period")
    if refFalsy ctx.refs.tax_run_id then
      let ctx := { ctx with state := STATE_TAX_CALC }
      (ctx, { reply := some .paymentNeedTax, state := some ctx.state,
              suggestions := ["공제 검증 진행"] }, [])
    else
      let tax_run_id := ctx.refs.tax_run_id.getD ""
      let req2 := requireSlots ctx ["pay_date"]
      if !req2.1 then
        (ctx, { reply := some .paymentNeedPayDate, state := some ctx.state,
                suggestions := ["25일 지급", "2026-01-25 지급"] }, [])
      else
        let payment_method :=
          if slotFalsy (slotsGet ctx.slots "payment_method") then "bank_transfer"
          else slotStr (slotsGet ctx.slots "payment_method")
        let ctx := { ctx with
          slots := slotsSet ctx.slots "payment_method" (.s payment_method) }
        let pay_date := slotStr (slotsGet ctx.slots "pay_date")
        match confirm with
        | none =>
          (ctx, { reply := some
                    (.paymentConfirmPrompt period tax_run_id pay_date payment_method),
                  state := some ctx.state, suggestions := ["예", "아니오"] }, [])
        | some false =>
          (ctx, { reply := some .paymentCancelled, state := some ctx.state,
                  suggestions := ["지급 실행", "지급일 수정", "취소(시나리오 종료)"] }, [])
        | some true =>
          let q := EngCall.paymentRun period pay_date tax_run_id
          let res := engine q
          let payment_run_id := make_run_id "PM" period hexId
          let newRefs := { ctx.refs with artifacts := some res, payment_run_id := some payment_run_id }
          let newHist := ctx.history ++ [⟨STATE_PAYMENT_RUN, "지급 실행(또는 준비) 조회 실행", payment_run_id⟩]
          let ctx := { ctx with refs := newRefs, history := newHist, state := STATE_JOURNAL_POST }
          (ctx, { reply := some (.paymentDone payment_run_id),
                  state := some ctx.state, artifacts := some res,
                  suggestions := ["2026-01-31 전표", "1/31 전표"] }, [q])

/-- `\b(0?[1-9]|1[0-2])\s*/\s*(0?[1-9]|[12]\d|3[01])\b` -/
def patMonthSlashDay : List RItem :=
  [.one .bnd, .grp monthAlts, .one (.many isSpaceChar),
   .one (.tok (fun c => c = '/')), .one (.many isSpaceChar),
   .grp dayAlts, .one .bnd]

/-- The journal-date parsing block of `_state_journal_post`: when the
`journal_date` slot is empty, try to read a full date or an `m/d` date
from the last user text. -/
def journal_fill_date (ctx : ScenarioContext) (period : String) :
    ScenarioContext :=
  let last_text := slotStr (slotsGet ctx.slots "_last_user_text")
  if slotFalsy (slotsGet ctx.slots "journal_date") then
    match reSearch patFullDate last_text with
    | some (y :: mm :: dd :: _) =>
      let jd := toString (parseNat y) ++ "-" ++ pad2 (parseNat mm) ++ "-" ++ pad2 (parseNat dd)
      { ctx with slots := slotsSet ctx.slots "journal_date" (.s jd) }
    | _ =>
      match reSearch patMonthSlashDay last_text with
      | some (mm :: dd :: _) =>
        let y := parseNat (String.mk ((splitOnCh '-' period.toList).getD 0 []))
        let jd := toString y ++ "-" ++ pad2 (parseNat mm) ++ "-" ++ pad2 (parseNat dd)
        { ctx with slots := slotsSet ctx.slots "journal_date" (.s jd) }
      | _ => ctx
  else ctx

/-- STATE 4: `_state_journal_post`. -/
def state_journal_post (ctx : ScenarioContext) (engine : EngCall → EngineRes)
    (hexId : String) (confirm : Option Bool) :
    ScenarioContext × TurnOut × List EngCall :=
  let req := requireSlots ctx ["period"]
  if !req.1 then
    (ctx, { reply := some .journalNeedPeriod, state := some ctx.state,
            suggestions := ["이번달 전표", "2026-01 전표"] }, [])
  else
    let period := slotStr (slotsGet ctx.slots "period")
    if refFalsy ctx.refs.payment_run_id then
      let ctx := { ctx with state := STATE_PAYMENT_RUN }
      (ctx, { reply := some .journalNeedPayment, state := some ctx.state,
              suggestions := ["지급 실행"] }, [])
    else
      let payment_run_id := ctx.refs.payment_run_id.getD ""
      let ctx := journal_fill_date ctx period
      if slotFalsy (slotsGet ctx.slots "journal_date") then
        (ctx, { reply := some .journalNeedDate, state := some ctx.state,
                suggestions := ["2026-01-31 전표", "1/31 전표"] }, [])
      else
        let coa := if slotFalsy (slotsGet ctx.slots "coa_mapping_version") then "v1"
          else slotStr (slotsGet ctx.slots "coa_mapping_version")
        let ctx := { ctx with
          slots := slotsSet ctx.slots "coa_mapping_version" (.s coa) }
        let journal_date := slotStr (slotsGet ctx.slots "journal_date")
        match confirm with
        | none =>
          (ctx, { reply := some
                    (.journalConfirmPrompt period payment_run_id journal_date coa),
                  state := some ctx.state, suggestions := ["예", "아니오"] }, [])
        | some false =>
          (ctx, { reply := some .journalCancelled, state := some ctx.state,
                  suggestions := ["전표 생성", "전표일 수정", "취소(시나리오 종료)"] }, [])
        | some true =>
          let q := EngCall.journalPost period payment_run_id journal_date coa
          let res := engine q
          let journal_run_id := make_run_id "JV" period hexId
          let newRefs := { ctx.refs with artifacts := some res, journal_run_id := some journal_run_id }
          let newHist := ctx.history ++ [⟨STATE_JOURNAL_POST, "전표 생성(또는 초안) 조회 실행", journal_run_id⟩]
          let ctx := { ctx with refs := newRefs, history := newHist, state := STATE_DONE }
          (ctx, { reply := some (.journalDone journal_run_id),
                  state := some ctx.state, artifacts := some res,
                  suggestions := ["예", "아니오", "요약 보여줘"] }, [q])

/-- DONE: `_state_done` — emits the summary and soft-clears. -/
def state_done (ctx : ScenarioContext) :
    ScenarioContext × TurnOut × List EngCall :=
  let reply := Reply.doneSummary (slotsGet ctx.slots "period")
    (slotsGet ctx.slots "employee_scope") ctx.refs.payroll_run_id
    ctx.refs.tax_run_id ctx.refs.payment_run_id ctx.refs.journal_run_id
  let ctx := { ctx with active_scenario := "", state := "" }
  (ctx, { reply := some reply, state := none,
          suggestions := ["처음부터 다시", "취소(시나리오 종료)"] }, [])

/-- `_handle_state`: dispatch on the current stage, with the
corrupted-state fallback to PAYROLL_CALC. -/
def handle_state (ctx : ScenarioContext) (engine : EngCall → EngineRes)
    (hexId : String) (confirm : Option Bool) :
    ScenarioContext × TurnOut × List EngCall :=
  if ctx.state = STATE_PAYROLL_CALC then state_payroll_calc ctx engine hexId
  else if ctx.state = STATE_TAX_CALC then state_tax_calc ctx engine hexId
  else if ctx.state = STATE_PAYMENT_RUN then
    state_payment_run ctx engine hexId confirm
  else if ctx.state = STATE_JOURNAL_POST then
    state_journal_post ctx engine hexId confirm
  else if ctx.state = STATE_DONE then state_done ctx
  else state_payroll_calc { ctx with state := STATE_PAYROLL_CALC } engine hexId

/-- `(급여|원천세|4대보험|지급|전표|공제)` -/
def patsTrigger : List (List RItem) :=
  [litPat "급여", litPat "원천세", litPat "4대보험", litPat "지급",
   litPat "전표", litPat "공제"]

/-- `_is_payroll_trigger` (the extracted slots argument is unused in the
source). -/
def is_payroll_trigger (text : String) (ctx : ScenarioContext) : Bool :=
  ctx.active_scenario = ACTIVE_SCENARIO || reTestAny patsTrigger text

/-- `_maybe_jump_state`. -/
def maybe_jump_state (ctx : ScenarioContext) (intent : String) :
    ScenarioContext :=
  if intent = "PAYROLL" then { ctx with state := STATE_PAYROLL_CALC }
  else if intent = "TAX" then { ctx with state := STATE_TAX_CALC }
  else if intent = "PAYMENT" then { ctx with state := STATE_PAYMENT_RUN }
  else if intent = "JOURNAL" then { ctx with state := STATE_JOURNAL_POST }
  else ctx

/-- Scenario activation step of `route_and_handle`: replace an inactive
context by a fresh one at PAYROLL_CALC. -/
def activate (ctx : ScenarioContext) : ScenarioContext :=
  if ctx.active_scenario ≠ ACTIVE_SCENARIO then
    { active_scenario := ACTIVE_SCENARIO, state := STATE_PAYROLL_CALC,
      slots := [], refs := {}, history := [] }
  else ctx

/-- Merge newly extracted slots, excluding `intent` and `confirm`. -/
def mergeSlots (slots extracted : List (String × SlotVal)) :
    List (String × SlotVal) :=
  (extracted.filter (fun kv => kv.1 ≠ "intent" && kv.1 ≠ "confirm")).foldl
    (fun acc kv => slotsSet acc kv.1 kv.2) slots

/-- The session memory store (`ScenarioMemoryManager`): a mapping from
session id to the stored context dictionary. -/
abbrev Store := List (String × ScenarioContext)

def storeGet (st : Store) (sid : String) : Option ScenarioContext :=
  PyDict.get st sid

def storeSet (st : Store) (sid : String) (c : ScenarioContext) : Store :=
  PyDict.set st sid c

def storeClear (st : Store) (sid : String) : Store :=
  PyDict.erase st sid

/-- `ScenarioContext.from_dict(self.memory.get(session_id))`: a missing
session yields the all-default context. -/
def loadCtx (st : Store) (sid : String) : ScenarioContext :=
  (storeGet st sid).getD {}

/-- `PayrollScenario.route_and_handle`, with the engine as an oracle and
the generated uuid hex chunk passed in; additionally returns the list of
engine calls issued during the turn. -/
def route_and_handle (store : Store) (session_id user_text : String)
    (engine : EngCall → EngineRes) (hexId : String) :
    Store × TurnOut × List EngCall :=
  let slots := extract_slots user_text
  let ctx := loadCtx store session_id
  if !is_payroll_trigger user_text ctx then
    (store, { handled := false }, [])
  else
    let ctx := activate ctx
    let ctx := { ctx with
      slots := slotsSet ctx.slots "_last_user_text" (.s user_text) }
    if slotsGet slots "intent" = some (.s "EXIT") then
      (storeClear store session_id,
       { reply := some .exitScenario, state := none }, [])
    else
      let ctx := { ctx with slots := mergeSlots ctx.slots slots }
      let confirm := match slotsGet slots "confirm" with
        | some (.b b) => some b
        | _ => none
      let ctx := normalize_slots ctx
      let ctx := match slotsGet slots "intent" with
        | some (.s i) => maybe_jump_state ctx i
        | _ => ctx
      let r := handle_state ctx engine hexId confirm
      (storeSet store session_id r.1, r.2.1, r.2.2)

/-- A well-behaved engine oracle producing the per-stage summary shapes. -/
def engineOk : EngCall → EngineRes := fun c =>
  match c with
  | .payrollCalc _ _ _ =>
      { fixed_sql := "q1", result := some (.lst [.tup [.int 26, .int 92082741, .int 7611337, .int 0]]) }
  | .taxVerify _ =>
      { fixed_sql := "q2", result := some (.lst [.tup [.int 26, .int 92082741, .int 7611337, .int 84471404, .str "0.0826", .int 0]]) }
  | .paymentRun _ _ _ =>
      { fixed_sql := "q3", result := some (.lst [.tup [.int 26, .int 0, .int 84471404]]) }
  | .journalPost _ _ _ _ =>
      { fixed_sql := "q4", result := some (.lst [.tup [.int 84471404, .int 84471404]]) }

/-- An engine oracle whose call fails: the response carries an error and no
result (the `except` branch of `HRTextToSQLEngine.run`). -/
def engineErr : EngCall → EngineRes := fun _ =>
  { fixed_sql := "q", error := some "execution failed" }

end ScenarioPayroll

namespace AppHrSql

open Re
open ScenarioPayroll (SlotVal slotsGet slotsSet slotFalsy slotStr splitOnCh
  strStarts patYyyyMm patYearKorMonth patBareMonth patFullDate
  patMonthSlashDay patDayOnly patsThisMonth patsPaymentWords patDept
  monthAlts dayAlts yearSeq sepCls isDigitCh hangulSyl wordKo)

/-- Reference date constants of `app_hr_sql.py`. -/
def TODAY_Y : Nat := 2026
def TODAY_M : Nat := 1

def RPC_ACTIVE : String := "PAYROLL_RPC"
def S_PAYROLL : String := "PAYROLL"
def S_TAX : String := "TAX"
def S_PAYMENT : String := "PAYMENT"
def S_JOURNAL : String := "JOURNAL"
def S_DONE : String := "DONE"

/-- `extract_period` of `app_hr_sql.py` (same patterns as the scenario
version but with no last-month rule). -/
def extract_period (text : String) : Option String :=
  let t := pyStrip text
  match reSearch patYyyyMm t with
  | some (y :: mm :: _) => some (y ++ "-" ++ pad2 (parseNat mm))
  | _ =>
  match reSearch patYearKorMonth t with
  | some (y :: mm :: _) => some (y ++ "-" ++ pad2 (parseNat mm))
  | _ =>
  match reSearch patBareMonth t with
  | some (mm :: _) => some (toString TODAY_Y ++ "-" ++ pad2 (parseNat mm))
  | _ =>
  if reTestAny patsThisMonth t then some (toString TODAY_Y ++ "-" ++ pad2 TODAY_M)
  else none

/-- `(전\s*직원|전체\s*직원|전체|전사|모두|전부서|전\s*부서|전부\s*서)` -/
def patsScopeAllRpc : List (List RItem) :=
  [(lits "전" ++ [SItem.many isSpaceChar] ++ lits "직원").map RItem.one,
   (lits "전체" ++ [SItem.many isSpaceChar] ++ lits "직원").map RItem.one,
   litPat "전체", litPat "전사", litPat "모두", litPat "전부서",
   (lits "전" ++ [SItem.many isSpaceChar] ++ lits "부서").map RItem.one,
   (lits "전부" ++ [SItem.many isSpaceChar] ++ lits "서").map RItem.one]

/-- `extract_scope` of `app_hr_sql.py` (no bare-name capture). -/
def extract_scope (text : String) : Option String :=
  let t := pyStrip text
  if reTestAny patsScopeAllRpc t then some "ALL"
  else
  match reSearch patDept t with
  | some (g1 :: g2 :: _) => some ("dept:" ++ g1 ++ g2)
  | _ => none

/-- `extract_date_any` of `app_hr_sql.py`. -/
def extract_date_any (text : String) : Option String :=
  let t := pyStrip text
  match reSearch patFullDate t with
  | some (y :: mm :: dd :: _) =>
      some (pad4 (parseNat y) ++ "-" ++ pad2 (parseNat mm) ++ "-" ++
            pad2 (parseNat dd))
  | _ =>
  match reSearch patMonthSlashDay t with
  | some (mm :: dd :: _) =>
      some ("__MD__:" ++ toString (parseNat mm) ++ ":" ++ toString (parseNat dd))
  | _ =>
  match reSearch patDayOnly t with
  | some (dd :: _) => some ("__DAY__:" ++ toString (parseNat dd))
  | _ => none

/-- `extract_confirm` of `app_hr_sql.py` (textually the same function as in
`scenario_payroll.py`). -/
def extract_confirm : String → Option Bool := ScenarioPayroll.extract_confirm

/-- `(처리|실행|진행|계산|산정해|돌려|생성해|등록|전표생성|지급해)` -/
def patsExecute : List (List RItem) :=
  [litPat "처리", litPat "실행", litPat "진행", litPat "계산", litPat "산정해",
   litPat "돌려", litPat "생성해", litPat "등록", litPat "전표생성", litPat "지급해"]

/-- `is_execute_intent`. -/
def is_execute_intent (text : String) : Bool :=
  reTestAny patsExecute (pyStrip text)

/-- `(몇\s*명|인원|대상|총액|합계|금액|건수|결과|내역|리스트|상세|조회|보여줘)` -/
def patsQuery : List (List RItem) :=
  [(lits "몇" ++ [SItem.many isSpaceChar] ++ lits "명").map RItem.one,
   litPat "인원", litPat "대상", litPat "총액", litPat "합계", litPat "금액",
   litPat "건수", litPat "결과", litPat "내역", litPat "리스트", litPat "상세",
   litPat "조회", litPat "보여줘"]

/-- `is_query_intent`. -/
def is_query_intent (text : String) : Bool :=
  reTestAny patsQuery (pyStrip text)

/-- `month_to_period_date`: `"2026-01"` to `"2026-01-01"`. -/
def month_to_period_date (period_yyyy_mm : String) : String :=
  let parts := splitOnCh '-' period_yyyy_mm.toList
  let y := parseNat (String.mk (parts.getD 0 []))
  let m := parseNat (String.mk (parts.getD 1 []))
  pad4 y ++ "-" ++ pad2 m ++ "-01"

/-- `(취소|종료|그만|중단|리셋|초기화)` — the rpc exit keywords (note: no
`처음부터`, unlike the scenario EXIT intent). -/
def patsRpcExit : List (List RItem) :=
  [litPat "취소", litPat "종료", litPat "그만", litPat "중단",
   litPat "리셋", litPat "초기화"]

/-- `_to_rows` of `app_hr_sql.py` on parsed values: a `str` here is a
result whose text `literal_eval` could not parse, which yields `[]` (this
variant has no numeric-token fallback). -/
def rpc_to_rows : PyVal → List PyVal
  | .nonev => []
  | .lst xs => xs
  | .tup xs => xs
  | .str _ => []
  | v => [v]

/-- `rows[i]` under an already-checked bound (an out-of-range access would
raise in Python; it does not occur in the guarded uses below). -/
def pyAt (xs : List PyVal) (i : Nat) : PyVal := xs.getD i .nonev

/-- The SQL statements issued by the rpc orchestrator, one constructor per
build site, carrying the interpolated parameters. -/
inductive SqlQuery where
  | payrollRpc (period_date scope : String)
  | taxRpc (period_date scope payroll_run_id : String)
  | paymentRpc (period_date scope tax_run_id pay_date : String)
  | journalRpc (period_date scope payment_run_id journal_date : String)
  | fetchRun (run_id : String)
  | fetchLines (run_id : String)
deriving DecidableEq, Repr

/-- The rpc context refs (`payroll_run_id` … `journal_run_id`). -/
structure RpcRefs where
  payroll_run_id : Option String := none
  tax_run_id : Option String := none
  payment_run_id : Option String := none
  journal_run_id : Option String := none
deriving DecidableEq, Repr

/-- Truthiness of `refs.get(k)` (`None` or missing is falsy; note that a
stored `str(None) = "None"` is truthy). -/
def refTruthy (r : Option String) : Bool := r.getD "" ≠ ""

/-- `ctx.get("refs")` truthiness: the refs dict is non-empty. -/
def refsNonempty (r : RpcRefs) : Bool :=
  r.payroll_run_id.isSome || r.tax_run_id.isSome ||
  r.payment_run_id.isSome || r.journal_run_id.isSome

/-- One rpc history entry (`{"state": ..., "run_id": ...}`). -/
structure RpcHist where
  state : String
  run_id : String
deriving DecidableEq, Repr

/-- The rpc scenario context dictionary. -/
structure RpcContext where
  active_scenario : String := ""
  state : String := ""
  slots : List (String × SlotVal) := []
  refs : RpcRefs := {}
  history : List RpcHist := []
deriving DecidableEq, Repr

/-- The replies of `rpc_run` / `rpc_answer_query_from_refs`, one
constructor per return site, carrying the interpolated values. -/
inductive RpcReply where
  | exitReply
  | payrollNeedInfo (missing : List String)
  | payrollParseFail
  | payrollDone (run_id : String) (summary : List (String × PyVal))
  | taxNeedPeriodScope
  | taxNeedPayroll
  | taxDone (run_id : String) (summary : List (String × PyVal))
  | paymentNeedTax
  | paymentNeedPeriodScope
  | paymentNeedPayDate
  | paymentPrompt (period scope pay_date : String)
  | paymentCancelled
  | paymentDone (run_id : String) (summary : List (String × PyVal))
  | journalNeedPayment
  | journalNeedPeriodScope
  | journalNeedDate
  | journalPrompt (period scope journal_date : String)
  | journalCancelled
  | journalDone (run_id : String) (summary : List (String × PyVal))
  | doneAsk
  | doneDeclined
  | doneSummary (payroll_run_id tax_run_id payment_run_id journal_run_id : Option String)
  | resetBroken
  | queryHeadcount (n : Option PyVal)
  | queryGross (v : Option PyVal)
  | queryDed (v : Option PyVal)
  | queryNet (v : Option PyVal)
  | queryPaymentLines (cnt : Nat)
  | queryJournalLines (cnt : Nat)
  | querySummaryAll (summary : List (String × PyVal))

/-- The outcome dictionary of `rpc_run`.  The artifact entries that merely
repeat values carried by the reply constructor (`run_id`, `summary`,
`lines_result`) are not duplicated here; `rpc_sqls` is the collected list
of issued SQL statements. -/
structure RpcOut where
  handled : Bool := true
  reply : Option RpcReply := none
  state : Option String := none
  suggestions : List String := []
  rpc_sqls : List SqlQuery := []

abbrev RpcStore := List (String × RpcContext)

def rpcStoreGet (st : RpcStore) (sid : String) : Option RpcContext :=
  PyDict.get st sid

def rpcStoreSet (st : RpcStore) (sid : String) (c : RpcContext) : RpcStore :=
  PyDict.set st sid c

def rpcStoreClear (st : RpcStore) (sid : String) : RpcStore :=
  PyDict.erase st sid

/-- `rpc_get_ctx`: the stored context or the empty dictionary. -/
def rpc_get_ctx (st : RpcStore) (sid : String) : RpcContext :=
  (rpcStoreGet st sid).getD {}

/-- Python `a or b` on optional values. -/
def pyOr (a b : Option PyVal) : Option PyVal :=
  if (a.map pyTruthy).getD false then a else b

/-- `summary` extraction: `rr[0][6] if len(rr[0]) >= 7 and isinstance(..., dict)`. -/
def summaryOf (rr : List PyVal) : List (String × PyVal) :=
  match rr.head? with
  | some r =>
    match seqItems r with
    | some xs =>
      if 7 ≤ xs.length then
        match pyAt xs 6 with
        | .dict d => d
        | _ => []
      else []
    | none => []
  | none => []

/-- `(인원|몇\s*명|대상)` -/
def patsAskHeadcount : List (List RItem) :=
  [litPat "인원",
   (lits "몇" ++ [SItem.many isSpaceChar] ++ lits "명").map RItem.one,
   litPat "대상"]

/-- `(총\s*급여|총급여|gross)` -/
def patsAskGross : List (List RItem) :=
  [(lits "총" ++ [SItem.many isSpaceChar] ++ lits "급여").map RItem.one,
   litPat "총급여", litPat "gross"]

/-- `(총\s*실지급|실지급|net)` -/
def patsAskNet : List (List RItem) :=
  [(lits "총" ++ [SItem.many isSpaceChar] ++ lits "실지급").map RItem.one,
   litPat "실지급", litPat "net"]

/-- `(총\s*공제|공제\s*총액|deduction)` -/
def patsAskDed : List (List RItem) :=
  [(lits "총" ++ [SItem.many isSpaceChar] ++ lits "공제").map RItem.one,
   (lits "공제" ++ [SItem.many isSpaceChar] ++ lits "총액").map RItem.one,
   litPat "deduction"]

/-- `(지급\s*라인|지급\s*내역|지급\s*건수|이체\s*건수)` -/
def patsAskPayLines : List (List RItem) :=
  [(lits "지급" ++ [SItem.many isSpaceChar] ++ lits "라인").map RItem.one,
   (lits "지급" ++ [SItem.many isSpaceChar] ++ lits "내역").map RItem.one,
   (lits "지급" ++ [SItem.many isSpaceChar] ++ lits "건수").map RItem.one,
   (lits "이체" ++ [SItem.many isSpaceChar] ++ lits "건수").map RItem.one]

/-- `(전표\s*라인|전표\s*내역|분개\s*내역|전표\s*건수)` -/
def patsAskJournalLines : List (List RItem) :=
  [(lits "전표" ++ [SItem.many isSpaceChar] ++ lits "라인").map RItem.one,
   (lits "전표" ++ [SItem.many isSpaceChar] ++ lits "내역").map RItem.one,
   (lits "분개" ++ [SItem.many isSpaceChar] ++ lits "내역").map RItem.one,
   (lits "전표" ++ [SItem.many isSpaceChar] ++ lits "건수").map RItem.one]

/-- `(공제|세금)` -/
def patsTaxWords : List (List RItem) := [litPat "공제", litPat "세금"]

/-- `(전표|분개)` -/
def patsJournalWords2 : List (List RItem) := [litPat "전표", litPat "분개"]

/-- `(전표|분개|전기)` (journal-date disambiguation words). -/
def patsJournalDateWords : List (List RItem) :=
  [litPat "전표", litPat "분개", litPat "전기"]

/-- `rpc_answer_query_from_refs`: answer a read-only question from the
stored run ids, fetching run rows through the executor oracle.  Returns
the reply and the `sqls` list of the source's returned dictionary, or
`none`. -/
def rpc_answer_query_from_refs (ctx : RpcContext) (user_text : String)
    (db : SqlQuery → PyVal) : Option (RpcReply × List SqlQuery) :=
  let refs := ctx.refs
  let ask_headcount := reTestAny patsAskHeadcount user_text
  let ask_total_gross := reTestAny patsAskGross user_text
  let ask_total_net := reTestAny patsAskNet user_text
  let ask_total_ded := reTestAny patsAskDed user_text
  let ask_payment_lines := reTestAny patsAskPayLines user_text
  let ask_journal_lines := reTestAny patsAskJournalLines user_text
  let target := refs.payroll_run_id
  let target := if reTestAny patsTaxWords user_text && refTruthy refs.tax_run_id
    then refs.tax_run_id else target
  let target := if reTestAny patsPaymentWords user_text && refTruthy refs.payment_run_id
    then refs.payment_run_id else target
  let target := if reTestAny patsJournalWords2 user_text && refTruthy refs.journal_run_id
    then refs.journal_run_id else target
  if !refTruthy target then none
  else
    let tid := target.getD ""
    let sql_fetch := SqlQuery.fetchRun tid
    let rr := rpc_to_rows (db sql_fetch)
    let summary := summaryOf rr
    if ask_headcount then
      let base_id := if refTruthy refs.payroll_run_id then refs.payroll_run_id.getD "" else tid
      let base_sql := SqlQuery.fetchRun base_id
      let br := rpc_to_rows (db base_sql)
      let base_summary := summaryOf br
      some (.queryHeadcount (pyDictGet base_summary "employee_count"), [base_sql])
    else if ask_total_gross then
      some (.queryGross (pyDictGet summary "total_gross"), [sql_fetch])
    else if ask_total_ded then
      some (.queryDed (pyDictGet summary "total_deductions"), [sql_fetch])
    else if ask_total_net then
      some (.queryNet (pyOr (pyDictGet summary "total_net_pay")
                            (pyDictGet summary "pay_total")), [sql_fetch])
    else if ask_payment_lines && refTruthy refs.payment_run_id then
      let sql_lines := SqlQuery.fetchLines (refs.payment_run_id.getD "")
      let rows := rpc_to_rows (db sql_lines)
      some (.queryPaymentLines rows.length, [sql_lines])
    else if ask_journal_lines && refTruthy refs.journal_run_id then
      let sql_lines := SqlQuery.fetchLines (refs.journal_run_id.getD "")
      let rows := rpc_to_rows (db sql_lines)
      some (.queryJournalLines rows.length, [sql_lines])
    else
      some (.querySummaryAll summary, [sql_fetch])

/-- `resolve_md`: resolve `__MD__:*:*` / `__DAY__:*` against the period. -/
def resolve_md (raw : Option String) (period_yyyy_mm : String) : Option String :=
  match raw with
  | none => none
  | some r =>
    if r = "" then none
    else if strStarts r "__MD__:" then
      let parts := splitOnCh ':' r.toList
      let mm := parseNat (String.mk (parts.getD 1 []))
      let dd := parseNat (String.mk (parts.getD 2 []))
      let y := parseNat (String.mk ((splitOnCh '-' period_yyyy_mm.toList).getD 0 []))
      some (pad4 y ++ "-" ++ pad2 mm ++ "-" ++ pad2 dd)
    else if strStarts r "__DAY__:" then
      let dd := parseNat (String.mk (r.toList.drop 8))
      let parts := splitOnCh '-' period_yyyy_mm.toList
      let y := parseNat (String.mk (parts.getD 0 []))
      let m := parseNat (String.mk (parts.getD 1 []))
      some (pad4 y ++ "-" ++ pad2 m ++ "-" ++ pad2 dd)
    else some r

/-- `(전체\s*요약|요약\s*보여줘|요약)` -/
def patsSummaryWords : List (List RItem) :=
  [(lits "전체" ++ [SItem.many isSpaceChar] ++ lits "요약").map RItem.one,
   (lits "요약" ++ [SItem.many isSpaceChar] ++ lits "보여줘").map RItem.one,
   litPat "요약"]

/-- The run-id parse of the S_PAYROLL block. -/
def payrollRunIdOf (rows : List PyVal) : Option PyVal :=
  match rows.head? with
  | some r =>
    match seqItems r with
    | some xs => if 1 ≤ xs.length then some (pyAt xs 0) else none
    | none =>
      match r with
      | .str s => some (.str s)
      | _ => none
  | none => none

/-- The run-id parse of the S_TAX / S_PAYMENT / S_JOURNAL blocks
(`rows[0][0] if rows and isinstance(rows[0], (list, tuple)) else None`). -/
def stageRunIdOf (rows : List PyVal) : Option PyVal :=
  match rows.head? with
  | some r =>
    match seqItems r with
    | some xs => some (pyAt xs 0)
    | none => none
  | none => none

/-- The fresh rpc context created when no scenario is active. -/
def freshRpcCtx : RpcContext :=
  { active_scenario := RPC_ACTIVE, state := S_PAYROLL, slots := [],
    refs := {}, history := [] }

/-- `rpc_run` of `app_hr_sql.py`: the state-based rpc orchestrator, with
the database executor as an oracle. -/
def rpc_run (store : RpcStore) (session_id user_text : String)
    (db : SqlQuery → PyVal) : RpcStore × RpcOut :=
  let ctx := rpc_get_ctx store session_id
  let active := ctx.active_scenario = RPC_ACTIVE
  let confirm := extract_confirm user_text
  if reTestAny patsRpcExit user_text then
    (rpcStoreClear store session_id,
     { reply := some .exitReply, state := none })
  else
  let ctx := if !active then freshRpcCtx else ctx
  -- first query side channel (before slot merging)
  let q1 := if is_query_intent user_text && confirm = none && refsNonempty ctx.refs
    then rpc_answer_query_from_refs ctx user_text db else none
  match q1 with
  | some q =>
    (rpcStoreSet store session_id ctx,
     { reply := some q.1, state := some ctx.state,
       suggestions := ["전체 프로세스 요약", "시나리오 종료"], rpc_sqls := q.2 })
  | none =>
  -- second query side channel (identical but additionally not execute-intent)
  let q2 := if is_query_intent user_text && !is_execute_intent user_text &&
      confirm = none && refsNonempty ctx.refs
    then rpc_answer_query_from_refs ctx user_text db else none
  match q2 with
  | some q =>
    (rpcStoreSet store session_id ctx,
     { reply := some q.1, state := some ctx.state,
       suggestions := ["전체 프로세스 요약", "시나리오 종료"], rpc_sqls := q.2 })
  | none =>
  let slots := ctx.slots
  let slots := match extract_period user_text with
    | some p => slotsSet slots "period" (.s p)
    | none => slots
  let slots := match extract_scope user_text with
    | some sc => slotsSet slots "scope" (.s sc)
    | none => slots
  let slots := match extract_date_any user_text with
    | some d =>
      if reTestAny patsJournalDateWords user_text then
        slotsSet slots "journal_date_raw" (.s d)
      else if reTestAny patsPaymentWords user_text then
        slotsSet slots "pay_date_raw" (.s d)
      else slotsSet slots "pay_date_raw" (.s d)
    | none => slots
  let ctx := { ctx with slots := slots }
  let state := if ctx.state = "" then S_PAYROLL else ctx.state
  let period_yyyy_mm := slotsGet slots "period"
  let scope_val := slotsGet slots "scope"
  if state = S_PAYROLL then
    if slotFalsy period_yyyy_mm || slotFalsy scope_val then
      let miss := (if slotFalsy period_yyyy_mm then ["period(예: 2026년 1월)"] else []) ++
                  (if slotFalsy scope_val then ["scope(예: 전직원/영업부)"] else [])
      let ctx := { ctx with state := S_PAYROLL }
      (rpcStoreSet store session_id ctx,
       { reply := some (.payrollNeedInfo miss), state := some ctx.state,
         suggestions := ["2026년 1월 전직원 급여 처리", "이번달 전직원 급여 처리", "시나리오 종료"] })
    else
      let period_date := month_to_period_date (slotStr period_yyyy_mm)
      let sql_call := SqlQuery.payrollRpc period_date (slotStr scope_val)
      let rows := rpc_to_rows (db sql_call)
      let run_id := payrollRunIdOf rows
      if !((run_id.map pyTruthy).getD false) then
        let ctx := { ctx with state := S_PAYROLL }
        (rpcStoreSet store session_id ctx,
         { reply := some .payrollParseFail, state := some ctx.state,
           suggestions := ["다시 시도", "시나리오 종료"], rpc_sqls := [sql_call] })
      else
        let rid := pyStr (run_id.getD .nonev)
        let newRefs := { ctx.refs with payroll_run_id := some rid }
        let newHist := ctx.history ++ [⟨S_PAYROLL, rid⟩]
        let ctx := { ctx with refs := newRefs, history := newHist }
        let sql_fetch := SqlQuery.fetchRun rid
        let rr := rpc_to_rows (db sql_fetch)
        let summary := summaryOf rr
        let ctx := { ctx with state := S_TAX }
        (rpcStoreSet store session_id ctx,
         { reply := some (.payrollDone rid summary), state := some ctx.state,
           suggestions := ["공제 검증 진행", "시나리오 종료"],
           rpc_sqls := [sql_call, sql_fetch] })
  else if state = S_TAX then
    if slotFalsy period_yyyy_mm || slotFalsy scope_val then
      let ctx := { ctx with state := S_PAYROLL }
      (rpcStoreSet store session_id ctx,
       { reply := some .taxNeedPeriodScope, state := some ctx.state,
         suggestions := ["2026년 1월 전직원 급여 처리", "시나리오 종료"] })
    else if !refTruthy ctx.refs.payroll_run_id then
      let ctx := { ctx with state := S_PAYROLL }
      (rpcStoreSet store session_id ctx,
       { reply := some .taxNeedPayroll, state := some ctx.state,
         suggestions := ["급여 처리", "시나리오 종료"] })
    else
      let payroll_run_id := ctx.refs.payroll_run_id.getD ""
      let period_date := month_to_period_date (slotStr period_yyyy_mm)
      let sql_call := SqlQuery.taxRpc period_date (slotStr scope_val) payroll_run_id
      let rows := rpc_to_rows (db sql_call)
      let run_id := stageRunIdOf rows
      let rid := pyStr (run_id.getD .nonev)
      let newRefs := { ctx.refs with tax_run_id := some rid }
      let newHist := ctx.history ++ [⟨S_TAX, rid⟩]
      let ctx := { ctx with refs := newRefs, history := newHist }
      let sql_fetch := SqlQuery.fetchRun rid
      let rr := rpc_to_rows (db sql_fetch)
      let summary := summaryOf rr
      let ctx := { ctx with state := S_PAYMENT }
      (rpcStoreSet store session_id ctx,
       { reply := some (.taxDone rid summary), state := some ctx.state,
         suggestions := ["25일 지급", "2026-01-25 지급", "시나리오 종료"],
         rpc_sqls := [sql_call, sql_fetch] })
  else if state = S_PAYMENT then
    if !refTruthy ctx.refs.tax_run_id then
      let ctx := { ctx with state := S_TAX }
      (rpcStoreSet store session_id ctx,
       { reply := some .paymentNeedTax, state := some ctx.state,
         suggestions := ["공제 검증 진행", "시나리오 종료"] })
    else if slotFalsy period_yyyy_mm || slotFalsy scope_val then
      let ctx := { ctx with state := S_PAYROLL }
      (rpcStoreSet store session_id ctx,
       { reply := some .paymentNeedPeriodScope, state := some ctx.state,
         suggestions := ["2026년 1월 전직원 급여 처리", "시나리오 종료"] })
    else
      let tax_run_id := ctx.refs.tax_run_id.getD ""
      let pay_date := resolve_md
        (match slotsGet slots "pay_date_raw" with
         | some (.s v) => some v
         | _ => none) (slotStr period_yyyy_mm)
      match pay_date with
      | none =>
        let ctx := { ctx with state := S_PAYMENT }
        (rpcStoreSet store session_id ctx,
         { reply := some .paymentNeedPayDate, state := some ctx.state,
           suggestions := ["25일 지급", "2026-01-25 지급", "시나리오 종료"] })
      | some pd =>
        match confirm with
        | none =>
          let ctx := { ctx with state := S_PAYMENT }
          (rpcStoreSet store session_id ctx,
           { reply := some (.paymentPrompt (slotStr period_yyyy_mm) (slotStr scope_val) pd),
             state := some ctx.state,
             suggestions := ["예", "아니오", "시나리오 종료"] })
        | some false =>
          let ctx := { ctx with state := S_PAYMENT }
          (rpcStoreSet store session_id ctx,
           { reply := some .paymentCancelled, state := some ctx.state,
             suggestions := ["예", "25일 지급", "시나리오 종료"] })
        | some true =>
          let period_date := month_to_period_date (slotStr period_yyyy_mm)
          let sql_call := SqlQuery.paymentRpc period_date (slotStr scope_val) tax_run_id pd
          let rows := rpc_to_rows (db sql_call)
          let run_id := stageRunIdOf rows
          let rid := pyStr (run_id.getD .nonev)
          let newRefs := { ctx.refs with payment_run_id := some rid }
          let newHist := ctx.history ++ [⟨S_PAYMENT, rid⟩]
          let ctx := { ctx with refs := newRefs, history := newHist }
          let sql_fetch := SqlQuery.fetchRun rid
          let rr := rpc_to_rows (db sql_fetch)
          let summary := summaryOf rr
          let ctx := { ctx with state := S_JOURNAL }
          (rpcStoreSet store session_id ctx,
           { reply := some (.paymentDone rid summary), state := some ctx.state,
             suggestions := ["2026-01-31 전표", "1/31 전표", "시나리오 종료"],
             rpc_sqls := [sql_call, sql_fetch] })
  else if state = S_JOURNAL then
    if !refTruthy ctx.refs.payment_run_id then
      let ctx := { ctx with state := S_PAYMENT }
      (rpcStoreSet store session_id ctx,
       { reply := some .journalNeedPayment, state := some ctx.state,
         suggestions := ["25일 지급", "시나리오 종료"] })
    else if slotFalsy period_yyyy_mm || slotFalsy scope_val then
      let ctx := { ctx with state := S_PAYROLL }
      (rpcStoreSet store session_id ctx,
       { reply := some .journalNeedPeriodScope, state := some ctx.state,
         suggestions := ["2026년 1월 전직원 급여 처리", "시나리오 종료"] })
    else
      let payment_run_id := ctx.refs.payment_run_id.getD ""
      let journal_date := resolve_md
        (match slotsGet slots "journal_date_raw" with
         | some (.s v) => some v
         | _ => none) (slotStr period_yyyy_mm)
      match journal_date with
      | none =>
        let ctx := { ctx with state := S_JOURNAL }
        (rpcStoreSet store session_id ctx,
         { reply := some .journalNeedDate, state := some ctx.state,
           suggestions := ["2026-01-31 전표", "1/31 전표", "시나리오 종료"] })
      | some jd =>
        match confirm with
        | none =>
          let ctx := { ctx with state := S_JOURNAL }
          (rpcStoreSet store session_id ctx,
           { reply := some (.journalPrompt (slotStr period_yyyy_mm) (slotStr scope_val) jd),
             state := some ctx.state,
             suggestions := ["예", "아니오", "시나리오 종료"] })
        | some false =>
          let ctx := { ctx with state := S_JOURNAL }
          (rpcStoreSet store session_id ctx,
           { reply := some .journalCancelled, state := some ctx.state,
             suggestions := ["예", "2026-01-31 전표", "시나리오 종료"] })
        | some true =>
          let period_date := month_to_period_date (slotStr period_yyyy_mm)
          let sql_call := SqlQuery.journalRpc period_date (slotStr scope_val) payment_run_id jd
          let rows := rpc_to_rows (db sql_call)
          let run_id := stageRunIdOf rows
          let rid := pyStr (run_id.getD .nonev)
          let newRefs := { ctx.refs with journal_run_id := some rid }
          let newHist := ctx.history ++ [⟨S_JOURNAL, rid⟩]
          let ctx := { ctx with refs := newRefs, history := newHist }
          let sql_fetch := SqlQuery.fetchRun rid
          let rr := rpc_to_rows (db sql_fetch)
          let summary := summaryOf rr
          let sql_lines := SqlQuery.fetchLines rid
          let ctx := { ctx with state := S_DONE }
          (rpcStoreSet store session_id ctx,
           { reply := some (.journalDone rid summary), state := some ctx.state,
             suggestions := ["예", "아니오", "시나리오 종료"],
             rpc_sqls := [sql_call, sql_fetch, sql_lines] })
  else if state = S_DONE then
    let q3 := if is_query_intent user_text && !is_execute_intent user_text &&
        confirm = none && refsNonempty ctx.refs
      then rpc_answer_query_from_refs ctx user_text db else none
    match q3 with
    | some q =>
      (rpcStoreSet store session_id ctx,
       { reply := some q.1, state := some ctx.state,
         suggestions := ["전체 프로세스 요약", "시나리오 종료"], rpc_sqls := q.2 })
    | none =>
    let confirm := if reTestAny patsSummaryWords user_text && confirm = none
      then some true else confirm
    match confirm with
    | none =>
      let ctx := { ctx with state := S_DONE }
      (rpcStoreSet store session_id ctx,
       { reply := some .doneAsk, state := some ctx.state,
         suggestions := ["예", "아니오", "시나리오 종료"] })
    | some false =>
      (rpcStoreClear store session_id,
       { reply := some .doneDeclined, state := none })
    | some true =>
      let refs := ctx.refs
      (rpcStoreClear store session_id,
       { reply := some (.doneSummary refs.payroll_run_id refs.tax_run_id
                        refs.payment_run_id refs.journal_run_id),
         state := none })
  else
    let ctx := { ctx with state := S_PAYROLL }
    (rpcStoreSet store session_id ctx,
     { reply := some .resetBroken, state := some S_PAYROLL,
       suggestions := ["2026년 1월 전직원 급여 처리"] })

end AppHrSql

section HelperDefs

open Re ScenarioPayroll

/-- Position of a stage in the forward order of the workflow. -/
def stageIdx : String → Nat
  | "PAYROLL_CALC" => 1
  | "TAX_CALC" => 2
  | "PAYMENT_RUN" => 3
  | "JOURNAL_POST" => 4
  | "DONE" => 5
  | _ => 0

/-- The handlers' success condition on a parsed engine result: the first
row exists, is a tuple/list, and has at least `n` columns. -/
def goodShape (n : Nat) (res : EngineRes) : Bool :=
  match (to_rows res.result).head? with
  | some r =>
    match seqItems r with
    | some xs => n ≤ xs.length
    | none => false
  | none => false

/-- The context handed to the stage dispatch by `route_and_handle` on an
active, non-exit turn: the `_last_user_text` write, the slot merge, the
normalisation and the intent-keyword stage jump, in the source's order. -/
def turnCtx (store : Store) (sid text : String) : ScenarioContext :=
  let ctx0 := loadCtx store sid
  let ctx1 := { ctx0 with
    slots := slotsSet ctx0.slots "_last_user_text" (.s text) }
  let ctx2 := { ctx1 with
    slots := mergeSlots ctx1.slots (extract_slots text) }
  let ctx3 := normalize_slots ctx2
  match slotsGet (extract_slots text) "intent" with
  | some (.s i) => maybe_jump_state ctx3 i
  | _ => ctx3

end HelperDefs

namespace PyDict

theorem get_overwrite_self {α : Type} (d : List (String × α)) (k : String)
    (v : α) (h : (d.find? (fun kv => kv.1 = k)).isSome) :
    get (d.map (fun kv => if kv.1 = k then (kv.1, v) else kv)) k = some v := by
  induction d with
  | nil => simp at h
  | cons hd tl ih =>
    by_cases hk : hd.1 = k
    · unfold get; simp [List.find?, hk]
    · have h' : (tl.find? (fun kv => kv.1 = k)).isSome := by
        simpa [List.find?, hk] using h
      have hrec := ih h'
      unfold get at hrec ⊢
      simpa [List.find?, hk] using hrec

theorem get_overwrite_ne {α : Type} (d : List (String × α)) (k k' : String)
    (v : α) (hne : k' ≠ k) :
    get (d.map (fun kv => if kv.1 = k then (kv.1, v) else kv)) k' = get d k' := by
  induction d with
  | nil => rfl
  | cons hd tl ih =>
    unfold get at ih ⊢
    by_cases hk : hd.1 = k
    · simpa [List.find?, hk, Ne.symm hne] using ih
    · by_cases hk2 : hd.1 = k'
      · simp [List.find?, hk, hk2, hne]
      · simpa [List.find?, hk, hk2] using ih

theorem get_append_self {α : Type} (d : List (String × α)) (k : String)
    (v : α) (h : ¬(d.find? (fun kv => kv.1 = k)).isSome) :
    get (d ++ [(k, v)]) k = some v := by
  induction d with
  | nil => unfold get; simp [List.find?]
  | cons hd tl ih =>
    by_cases hk : hd.1 = k
    · exact absurd (by simp [List.find?, hk]) h
    · have h' : ¬(tl.find? (fun kv => kv.1 = k)).isSome := by
        intro hh; apply h; simp [List.find?, hk, hh]
      have hrec := ih h'
      unfold get at hrec ⊢
      simpa [List.find?, hk] using hrec

theorem get_append_ne {α : Type} (d : List (String × α)) (k k' : String)
    (v : α) (hne : k' ≠ k) : get (d ++ [(k, v)]) k' = get d k' := by
  induction d with
  | nil => unfold get; simp [List.find?, Ne.symm hne]
  | cons hd tl ih =>
    unfold get at ih ⊢
    by_cases hk2 : hd.1 = k'
    · simp [List.find?, hk2]
    · simpa [List.find?, hk2] using ih

theorem get_set_self {α : Type} (d : List (String × α)) (k : String) (v : α) :
    get (set d k v) k = some v := by
  unfold set
  by_cases h : (d.find? (fun kv => kv.1 = k)).isSome
  · rw [if_pos h]; exact get_overwrite_self d k v h
  · rw [if_neg h]; exact get_append_self d k v h

theorem get_set_ne {α : Type} (d : List (String × α)) (k k' : String) (v : α)
    (hne : k' ≠ k) : get (set d k v) k' = get d k' := by
  unfold set
  by_cases h : (d.find? (fun kv => kv.1 = k)).isSome
  · rw [if_pos h]; exact get_overwrite_ne d k k' v hne
  · rw [if_neg h]; exact get_append_ne d k k' v hne

theorem get_erase_self {α : Type} (d : List (String × α)) (k : String) :
    get (erase d k) k = none := by
  unfold get erase
  induction d with
  | nil => simp
  | cons hd tl ih =>
    by_cases hk : hd.1 = k
    · simp only [List.filter, hk]; simp
    · simp only [List.filter, hk]; simp [List.find?, hk]

theorem get_set_isSome {α : Type} (d : List (String × α)) (k k' : String)
    (v : α) (h : (get d k').isSome) : (get (set d k v) k').isSome := by
  by_cases hk : k' = k
  · subst hk; rw [get_set_self]; rfl
  · rw [get_set_ne d k k' v hk]; exact h

end PyDict

namespace ScenarioPayroll

/-- When the `journal_date` slot is already present, the parsing block is
the identity. -/
theorem journal_fill_date_of_present (ctx : ScenarioContext) (period : String)
    (h : slotFalsy (slotsGet ctx.slots "journal_date") = false) :
    journal_fill_date ctx period = ctx := by
  unfold journal_fill_date
  simp [h]

end ScenarioPayroll

section ClaimTheorems

open Re ScenarioPayroll

/-- Helper: whenever the exit keyword pattern matches, `extract_slots`
reports the EXIT intent, because the EXIT assignment is the last intent
assignment and overwrites any earlier stage intent. -/
theorem extract_slots_exit_intent (t : String)
    (h : reTestAny patsIntentExit t = true) :
    slotsGet (extract_slots t) "intent" = some (.s "EXIT") := by
  unfold extract_slots
  simp only [h, if_true]
  exact PyDict.get_set_self _ _ _

/-- Claim C8 (counterexample): on the input `"지난달 3월"`, which contains
both a relative term (`지난달`, last month) and a bare month number
(`3월`), the bare-month (implicit) pattern wins and the extractor returns
`2026-03`, not the relative result `2025-12`; so the claimed priority
order explicit > relative > implicit does not hold. -/
theorem c8_period_priority_counterexample :
    reTestAny patsLastMonth "지난달 3월" = true ∧
    (reSearch patBareMonth "지난달 3월").isSome = true ∧
    extract_period "지난달 3월" = some "2026-03" ∧
    extract_period "지난달 3월" ≠ some "2025-12" :=
  ⟨by decide, by decide, by decide, by decide⟩

/-- Claim C8 (amended): period extraction is a total deterministic
function; an absolute year-month (`YYYY-MM` or `YYYY년 M월`) yields that
month, a bare month number yields that month in the fixed reference year
2026, and the relative terms resolve against the fixed today 2026-01-08,
with last month rolling over to 2025-12; but the priority order is
explicit > implicit > relative: a bare month number beats a relative term
(the universal clause), and an absolute year-month beats both. -/
theorem c8_period_extraction_amended :
    (∀ (t mm : String) (rest : List String),
      reSearch patYyyyMm (pyStrip t) = none →
      reSearch patYearKorMonth (pyStrip t) = none →
      reSearch patBareMonth (pyStrip t) = some (mm :: rest) →
      extract_period t = some (toString TODAY_YEAR ++ "-" ++ pad2 (parseNat mm))) ∧
    extract_period "2025-11 급여" = some "2025-11" ∧
    extract_period "2024년 3월 급여" = some "2024-03" ∧
    extract_period "7월 급여" = some "2026-07" ∧
    extract_period "이번달 급여" = some "2026-01" ∧
    extract_period "지난달 급여" = some "2025-12" ∧
    extract_period "2025-03 지난달" = some "2025-03" ∧
    extract_period "지난 달 5월" = some "2026-05" ∧
    extract_period "이번달 7월" = some "2026-07" := by
  refine ⟨?_, by decide, by decide, by decide, by decide, by decide, by decide,
    by decide, by decide⟩
  intro t mm rest h1 h2 h3
  unfold extract_period
  simp only [h1, h2, h3]

/-- Witness for the universal clause of the amended C8 theorem at the
concrete input `"지난달 3월"`. -/
theorem c8_period_extraction_amended_witness :
    extract_period "지난달 3월" =
      some (toString TODAY_YEAR ++ "-" ++ pad2 (parseNat "3")) :=
  c8_period_extraction_amended.1 "지난달 3월" "3" [] (by decide) (by decide)
    (by decide)

/-- Claim C10: intent extraction gives EXIT precedence over every stage
intent: whenever the exit keywords match (in particular when stage keywords
also match), the extracted intent is EXIT, and such a message routed into
an active scenario clears the session memory, returns the termination
reply, and issues no engine call. -/
theorem c10_exit_intent_precedence :
    (∀ t : String, reTestAny patsIntentExit t = true →
      slotsGet (extract_slots t) "intent" = some (.s "EXIT")) ∧
    (∀ (store : Store) (sid t : String) (engine : EngCall → EngineRes)
       (hexId : String),
      (loadCtx store sid).active_scenario = ACTIVE_SCENARIO →
      reTestAny patsIntentExit t = true →
      route_and_handle store sid t engine hexId =
        (storeClear store sid,
         { handled := true, reply := some .exitScenario, state := none,
           suggestions := [], artifacts := none }, [])) := by
  constructor
  · exact extract_slots_exit_intent
  · intro store sid t engine hexId hactive hexit
    unfold route_and_handle
    have htrig : is_payroll_trigger t (loadCtx store sid) = true := by
      unfold is_payroll_trigger
      rw [hactive]
      simp
    simp only [htrig, Bool.not_true, Bool.false_eq_true, if_false,
      extract_slots_exit_intent t hexit, if_true]

/-- Witness for C10: `"전표 취소"` contains both the journal stage keyword
and the cancel keyword; the extracted intent is EXIT and the turn clears
the active session. -/
theorem c10_exit_intent_precedence_witness :
    slotsGet (extract_slots "전표 취소") "intent" = some (.s "EXIT") ∧
    route_and_handle
        [("s", { active_scenario := "PAYROLL_E2E", state := "JOURNAL_POST" })]
        "s" "전표 취소" engineOk "AAA111" =
      ([], { handled := true, reply := some .exitScenario, state := none,
             suggestions := [], artifacts := none }, []) :=
  ⟨c10_exit_intent_precedence.1 "전표 취소" (by decide),
   c10_exit_intent_precedence.2
     [("s", { active_scenario := "PAYROLL_E2E", state := "JOURNAL_POST" })]
     "s" "전표 취소" engineOk "AAA111" (by decide) (by decide)⟩

/-- Claim C4: in a session with an active scenario, a message whose
extracted intent is EXIT clears the session's context entirely from the
memory store, returns the termination reply with no engine call and no
further stage processing, and the next trigger message starts a fresh
scenario: activation on the cleared session yields exactly the fresh
context at PAYROLL_CALC with empty slots, refs and history. -/
theorem c4_exit_clears_context (store : Store) (sid text : String)
    (engine : EngCall → EngineRes) (hexId : String)
    (hactive : (loadCtx store sid).active_scenario = ACTIVE_SCENARIO)
    (hexit : slotsGet (extract_slots text) "intent" = some (.s "EXIT")) :
    route_and_handle store sid text engine hexId =
      (storeClear store sid,
       { handled := true, reply := some .exitScenario, state := none,
         suggestions := [], artifacts := none }, []) ∧
    storeGet (storeClear store sid) sid = none ∧
    activate (loadCtx (storeClear store sid) sid) =
      { active_scenario := ACTIVE_SCENARIO, state := STATE_PAYROLL_CALC,
        slots := [], refs := {}, history := [] } := by
  have hget : storeGet (storeClear store sid) sid = none := by
    unfold storeGet storeClear
    exact PyDict.get_erase_self store sid
  refine ⟨?_, hget, ?_⟩
  · unfold route_and_handle
    have htrig : is_payroll_trigger text (loadCtx store sid) = true := by
      unfold is_payroll_trigger
      rw [hactive]
      simp
    simp only [htrig, Bool.not_true, Bool.false_eq_true, if_false, hexit,
      if_true]
  · unfold loadCtx
    rw [hget]
    rfl

/-- Witness for C4 at a concrete active session and the message `"취소"`. -/
theorem c4_exit_clears_context_witness :
    route_and_handle
        [("s", { active_scenario := "PAYROLL_E2E", state := "TAX_CALC",
                 slots := [("period", .s "2026-01")],
                 refs := { payroll_run_id := some "PR_1" } })]
        "s" "취소" engineOk "AAA111" =
      ([], { handled := true, reply := some .exitScenario, state := none,
             suggestions := [], artifacts := none }, []) ∧
    storeGet ([] : Store) "s" = none :=
  have h := c4_exit_clears_context
    [("s", { active_scenario := "PAYROLL_E2E", state := "TAX_CALC",
             slots := [("period", .s "2026-01")],
             refs := { payroll_run_id := some "PR_1" } })]
    "s" "취소" engineOk "AAA111" (by decide) (by decide)
  ⟨h.1, h.2.1⟩

/-- Claim C1: the confirmation gate of the PAYMENT_RUN and JOURNAL_POST
handlers.  With the stage's slots and prerequisite ref present: an absent
confirm yields the prompt echoing period, prerequisite run id, date and
method with the stage and refs unchanged and no engine call; confirm=false
yields the cancellation acknowledgement, also leaving stage and refs
unchanged with no engine call; only confirm=true issues the engine call. -/
theorem c1_confirmation_gate :
    (∀ (ctx : ScenarioContext) (engine : EngCall → EngineRes)
       (hexId tid : String),
      ctx.state = STATE_PAYMENT_RUN →
      slotFalsy (slotsGet ctx.slots "period") = false →
      slotFalsy (slotsGet ctx.slots "pay_date") = false →
      ctx.refs.tax_run_id = some tid → tid ≠ "" →
      (let rn := state_payment_run ctx engine hexId none
       let rf := state_payment_run ctx engine hexId (some false)
       let rt := state_payment_run ctx engine hexId (some true)
       let period := slotStr (slotsGet ctx.slots "period")
       let pay_date := slotStr (slotsGet ctx.slots "pay_date")
       let method := if slotFalsy (slotsGet ctx.slots "payment_method")
         then "bank_transfer" else slotStr (slotsGet ctx.slots "payment_method")
       (rn.2.1.reply = some (.paymentConfirmPrompt period tid pay_date method) ∧
        rn.2.1.state = some STATE_PAYMENT_RUN ∧
        rn.1.state = STATE_PAYMENT_RUN ∧ rn.1.refs = ctx.refs ∧ rn.2.2 = []) ∧
       (rf.2.1.reply = some .paymentCancelled ∧
        rf.2.1.state = some STATE_PAYMENT_RUN ∧
        rf.1.state = STATE_PAYMENT_RUN ∧ rf.1.refs = ctx.refs ∧ rf.2.2 = []) ∧
       rt.2.2 = [EngCall.paymentRun period pay_date tid])) ∧
    (∀ (ctx : ScenarioContext) (engine : EngCall → EngineRes)
       (hexId pid : String),
      ctx.state = STATE_JOURNAL_POST →
      slotFalsy (slotsGet ctx.slots "period") = false →
      slotFalsy (slotsGet ctx.slots "journal_date") = false →
      ctx.refs.payment_run_id = some pid → pid ≠ "" →
      (let rn := state_journal_post ctx engine hexId none
       let rf := state_journal_post ctx engine hexId (some false)
       let rt := state_journal_post ctx engine hexId (some true)
       let period := slotStr (slotsGet ctx.slots "period")
       let journal_date := slotStr (slotsGet ctx.slots "journal_date")
       let coa := if slotFalsy (slotsGet ctx.slots "coa_mapping_version")
         then "v1" else slotStr (slotsGet ctx.slots "coa_mapping_version")
       (rn.2.1.reply = some (.journalConfirmPrompt period pid journal_date coa) ∧
        rn.2.1.state = some STATE_JOURNAL_POST ∧
        rn.1.state = STATE_JOURNAL_POST ∧ rn.1.refs = ctx.refs ∧ rn.2.2 = []) ∧
       (rf.2.1.reply = some .journalCancelled ∧
        rf.2.1.state = some STATE_JOURNAL_POST ∧
        rf.1.state = STATE_JOURNAL_POST ∧ rf.1.refs = ctx.refs ∧ rf.2.2 = []) ∧
       rt.2.2 = [EngCall.journalPost period pid journal_date coa])) := by
  constructor
  · intro ctx engine hexId tid hstate hp hd htid htidne
    have hreq : requireSlots ctx ["period"] = (true, []) := by
      unfold requireSlots; simp [hp]
    have hreq2 : requireSlots ctx ["pay_date"] = (true, []) := by
      unfold requireSlots; simp [hd]
    have href : refFalsy (some tid) = false := by
      unfold refFalsy; simpa using htidne
    have hpd : slotsGet (slotsSet ctx.slots "payment_method"
        (.s (if slotFalsy (slotsGet ctx.slots "payment_method")
             then "bank_transfer"
             else slotStr (slotsGet ctx.slots "payment_method")))) "pay_date" =
        slotsGet ctx.slots "pay_date" := by
      unfold slotsGet slotsSet
      exact PyDict.get_set_ne _ _ _ _ (by decide)
    unfold state_payment_run
    simp only [hreq, hreq2, href, hstate, htid, hpd, Bool.not_true,
      Bool.false_eq_true, if_false, Option.getD_some]
    refine ⟨⟨?_, ?_, ?_, ?_, ?_⟩, ⟨?_, ?_, ?_, ?_, ?_⟩, ?_⟩ <;> trivial
  · intro ctx engine hexId pid hstate hp hd hpid hpidne
    have hreq : requireSlots ctx ["period"] = (true, []) := by
      unfold requireSlots; simp [hp]
    have href : refFalsy (some pid) = false := by
      unfold refFalsy; simpa using hpidne
    have hjd : slotsGet (slotsSet ctx.slots "coa_mapping_version"
        (.s (if slotFalsy (slotsGet ctx.slots "coa_mapping_version")
             then "v1"
             else slotStr (slotsGet ctx.slots "coa_mapping_version")))) "journal_date" =
        slotsGet ctx.slots "journal_date" := by
      unfold slotsGet slotsSet
      exact PyDict.get_set_ne _ _ _ _ (by decide)
    unfold state_journal_post
    simp only [hreq, href, hstate, hpid, Bool.not_true, Bool.false_eq_true,
      if_false, Option.getD_some,
      journal_fill_date_of_present ctx (slotStr (slotsGet ctx.slots "period")) hd,
      hd, hjd]
    refine ⟨⟨?_, ?_, ?_, ?_, ?_⟩, ⟨?_, ?_, ?_, ?_, ?_⟩, ?_⟩ <;> trivial

/-- Witness for C1 at a concrete PAYMENT_RUN context and a concrete
JOURNAL_POST context. -/
theorem c1_confirmation_gate_witness :
    (let ctx : ScenarioContext :=
      { active_scenario := "PAYROLL_E2E", state := "PAYMENT_RUN",
        slots := [("period", .s "2026-01"), ("pay_date", .s "2026-01-25")],
        refs := { payroll_run_id := some "PR_1", tax_run_id := some "TX_1" } }
     (state_payment_run ctx engineOk "H1" none).2.1.reply =
       some (.paymentConfirmPrompt "2026-01" "TX_1" "2026-01-25" "bank_transfer") ∧
     (state_payment_run ctx engineOk "H1" (some false)).2.2 = [] ∧
     (state_payment_run ctx engineOk "H1" (some true)).2.2 =
       [EngCall.paymentRun "2026-01" "2026-01-25" "TX_1"]) ∧
    (let ctx : ScenarioContext :=
      { active_scenario := "PAYROLL_E2E", state := "JOURNAL_POST",
        slots := [("period", .s "2026-01"), ("journal_date", .s "2026-01-31")],
        refs := { payment_run_id := some "PM_1" } }
     (state_journal_post ctx engineOk "H1" none).2.1.reply =
       some (.journalConfirmPrompt "2026-01" "PM_1" "2026-01-31" "v1") ∧
     (state_journal_post ctx engineOk "H1" (some true)).2.2 =
       [EngCall.journalPost "2026-01" "PM_1" "2026-01-31" "v1"]) := by
  have h1 := c1_confirmation_gate.1
    { active_scenario := "PAYROLL_E2E", state := "PAYMENT_RUN",
      slots := [("period", .s "2026-01"), ("pay_date", .s "2026-01-25")],
      refs := { payroll_run_id := some "PR_1", tax_run_id := some "TX_1" } }
    engineOk "H1" "TX_1" rfl (by decide) (by decide) rfl (by decide)
  have h2 := c1_confirmation_gate.2
    { active_scenario := "PAYROLL_E2E", state := "JOURNAL_POST",
      slots := [("period", .s "2026-01"), ("journal_date", .s "2026-01-31")],
      refs := { payment_run_id := some "PM_1" } }
    engineOk "H1" "PM_1" rfl (by decide) (by decide) rfl (by decide)
  exact ⟨⟨h1.1.1, h1.2.1.2.2.2.2, h1.2.2⟩, ⟨h2.1.1, h2.2.2⟩⟩

/-- Claim C3 (counterexample): when the engine call fails by returning an
error record instead of a result, the PAYROLL_CALC handler still advances
the stage to TAX_CALC, writes a `payroll_run_id` ref, and appends a
history entry — the turn does not leave the context unchanged. -/
theorem c3_error_still_advances_counterexample :
    (let ctx : ScenarioContext :=
      { active_scenario := "PAYROLL_E2E", state := "PAYROLL_CALC",
        slots := [("period", .s "2026-01"), ("employee_scope", .s "ALL")] }
     let r := state_payroll_calc ctx engineErr "AAA111"
     (engineErr (.payrollCalc "2026-01" "ALL" "preview")).result = none ∧
     (engineErr (.payrollCalc "2026-01" "ALL" "preview")).error =
       some "execution failed" ∧
     r.1.state = "TAX_CALC" ∧ r.1.state ≠ ctx.state ∧
     r.1.refs.payroll_run_id = some "PR_202601_AAA111" ∧
     ctx.refs.payroll_run_id = none ∧
     r.1.history = [⟨"PAYROLL_CALC", "급여 산정 조회 실행", "PR_202601_AAA111"⟩] ∧
     ctx.history = [] ∧
     r.2.1.reply = some (.payrollUninterpretable 4)) :=
  ⟨rfl, rfl, rfl, by decide, rfl, rfl, rfl, rfl, rfl⟩

/-- Claim C3 (amended): when the engine responds with an error and no
result, the turn proceeds exactly as a successful turn with an
uninterpretable result: each calling handler still advances the stage,
writes its run-id ref, and appends one history entry; PAYROLL_CALC and
TAX_CALC reply with the degraded could-not-interpret message, while
PAYMENT_RUN and JOURNAL_POST (on confirm=true) reply with their success
message.  (Only an engine call that raises, which skips the final
`memory.set`, leaves the stored context unchanged.) -/
theorem c3_error_turn_behavior (ctx : ScenarioContext)
    (engine : EngCall → EngineRes) (hexId : String)
    (herr : ∀ c, (engine c).result = none) :
    (slotFalsy (slotsGet ctx.slots "period") = false →
     slotFalsy (slotsGet ctx.slots "employee_scope") = false →
     (let r := state_payroll_calc ctx engine hexId
      let prid := make_run_id "PR" (slotStr (slotsGet ctx.slots "period")) hexId
      r.1.state = STATE_TAX_CALC ∧ r.1.refs.payroll_run_id = some prid ∧
      r.1.history = ctx.history ++ [⟨STATE_PAYROLL_CALC, "급여 산정 조회 실행", prid⟩] ∧
      r.2.1.reply = some (.payrollUninterpretable 4) ∧ r.2.2 ≠ [])) ∧
    (∀ tid, slotFalsy (slotsGet ctx.slots "period") = false →
     ctx.refs.payroll_run_id = some tid → tid ≠ "" →
     (let r := state_tax_calc ctx engine hexId
      let trid := make_run_id "TX" (slotStr (slotsGet ctx.slots "period")) hexId
      r.1.state = STATE_PAYMENT_RUN ∧ r.1.refs.tax_run_id = some trid ∧
      r.1.history = ctx.history ++ [⟨STATE_TAX_CALC, "공제 검증 조회 실행", trid⟩] ∧
      r.2.1.reply = some (.taxUninterpretable 6))) ∧
    (∀ tid, slotFalsy (slotsGet ctx.slots "period") = false →
     slotFalsy (slotsGet ctx.slots "pay_date") = false →
     ctx.refs.tax_run_id = some tid → tid ≠ "" →
     (let r := state_payment_run ctx engine hexId (some true)
      let pmid := make_run_id "PM" (slotStr (slotsGet ctx.slots "period")) hexId
      r.1.state = STATE_JOURNAL_POST ∧ r.1.refs.payment_run_id = some pmid ∧
      r.2.1.reply = some (.paymentDone pmid))) ∧
    (∀ pid, slotFalsy (slotsGet ctx.slots "period") = false →
     slotFalsy (slotsGet ctx.slots "journal_date") = false →
     ctx.refs.payment_run_id = some pid → pid ≠ "" →
     (let r := state_journal_post ctx engine hexId (some true)
      let jvid := make_run_id "JV" (slotStr (slotsGet ctx.slots "period")) hexId
      r.1.state = STATE_DONE ∧ r.1.refs.journal_run_id = some jvid ∧
      r.2.1.reply = some (.journalDone jvid))) := by
  refine ⟨?_, ?_, ?_, ?_⟩
  · intro hp hs
    have hreq : requireSlots ctx ["period", "employee_scope"] = (true, []) := by
      unfold requireSlots; simp [hp, hs]
    unfold state_payroll_calc
    simp only [hreq, Bool.not_true, Bool.false_eq_true, if_false, herr, to_rows]
    refine ⟨?_, ?_, ?_, ?_, ?_⟩ <;> first | trivial | simp
  · intro tid hp htid htidne
    have hreq : requireSlots ctx ["period"] = (true, []) := by
      unfold requireSlots; simp [hp]
    have href : refFalsy (some tid) = false := by
      unfold refFalsy; simpa using htidne
    unfold state_tax_calc
    simp only [hreq, htid, href, Bool.not_true, Bool.false_eq_true, if_false,
      herr, to_rows]
    refine ⟨?_, ?_, ?_, ?_⟩ <;> trivial
  · intro tid hp hd htid htidne
    have hreq : requireSlots ctx ["period"] = (true, []) := by
      unfold requireSlots; simp [hp]
    have hreq2 : requireSlots ctx ["pay_date"] = (true, []) := by
      unfold requireSlots; simp [hd]
    have href : refFalsy (some tid) = false := by
      unfold refFalsy; simpa using htidne
    unfold state_payment_run
    simp only [hreq, hreq2, htid, href, Bool.not_true, Bool.false_eq_true,
      if_false]
    refine ⟨?_, ?_, ?_⟩ <;> trivial
  · intro pid hp hd hpid hpidne
    have hreq : requireSlots ctx ["period"] = (true, []) := by
      unfold requireSlots; simp [hp]
    have href : refFalsy (some pid) = false := by
      unfold refFalsy; simpa using hpidne
    unfold state_journal_post
    simp only [hreq, hpid, href, Bool.not_true, Bool.false_eq_true, if_false,
      journal_fill_date_of_present ctx (slotStr (slotsGet ctx.slots "period")) hd,
      hd, Option.getD_some]
    refine ⟨?_, ?_, ?_⟩ <;> trivial

/-- Witness for the amended C3 theorem at the failing engine `engineErr`
and a concrete context. -/
theorem c3_error_turn_behavior_witness :
    (let ctx : ScenarioContext :=
      { active_scenario := "PAYROLL_E2E", state := "PAYROLL_CALC",
        slots := [("period", .s "2026-01"), ("employee_scope", .s "ALL")] }
     let r := state_payroll_calc ctx engineErr "H9"
     r.1.state = "TAX_CALC" ∧ r.1.refs.payroll_run_id = some "PR_202601_H9" ∧
     r.2.1.reply = some (.payrollUninterpretable 4)) :=
  have h := (c3_error_turn_behavior
    { active_scenario := "PAYROLL_E2E", state := "PAYROLL_CALC",
      slots := [("period", .s "2026-01"), ("employee_scope", .s "ALL")] }
    engineErr "H9" (fun _ => rfl)).1 (by decide) (by decide)
  ⟨h.1, h.2.1, h.2.2.2.1⟩

/-- Claim C7: when the parsed first row of the engine result is not a
tuple/list of at least the expected arity (4 columns for PAYROLL_CALC, 6
for TAX_CALC), the handler returns, without raising, the degraded reply
that names the expected column count and carries no value taken from the
malformed result. -/
theorem c7_bad_shape_degraded :
    (∀ (ctx : ScenarioContext) (engine : EngCall → EngineRes) (hexId : String),
      slotFalsy (slotsGet ctx.slots "period") = false →
      slotFalsy (slotsGet ctx.slots "employee_scope") = false →
      goodShape 4 (engine (EngCall.payrollCalc
        (slotStr (slotsGet ctx.slots "period"))
        (slotStr (slotsGet ctx.slots "employee_scope"))
        (if slotFalsy (slotsGet ctx.slots "calc_mode") then "preview"
         else slotStr (slotsGet ctx.slots "calc_mode")))) = false →
      (state_payroll_calc ctx engine hexId).2.1.reply =
        some (.payrollUninterpretable 4)) ∧
    (∀ (ctx : ScenarioContext) (engine : EngCall → EngineRes)
       (hexId tid : String),
      slotFalsy (slotsGet ctx.slots "period") = false →
      ctx.refs.payroll_run_id = some tid → tid ≠ "" →
      goodShape 6 (engine (EngCall.taxVerify
        (slotStr (slotsGet ctx.slots "period")))) = false →
      (state_tax_calc ctx engine hexId).2.1.reply =
        some (.taxUninterpretable 6)) := by
  constructor
  · intro ctx engine hexId hp hs hbad
    have hreq : requireSlots ctx ["period", "employee_scope"] = (true, []) := by
      unfold requireSlots; simp [hp, hs]
    unfold state_payroll_calc
    simp only [hreq, Bool.not_true, Bool.false_eq_true, if_false]
    unfold goodShape at hbad
    rcases hh : (to_rows (engine (EngCall.payrollCalc
        (slotStr (slotsGet ctx.slots "period"))
        (slotStr (slotsGet ctx.slots "employee_scope"))
        (if slotFalsy (slotsGet ctx.slots "calc_mode") then "preview"
         else slotStr (slotsGet ctx.slots "calc_mode")))).result).head? with
      _ | r
    · simp only [hh]
    · simp only [hh] at hbad
      rcases hseq : seqItems r with _ | xs
      · simp only [hh, hseq]
      · simp only [hseq] at hbad
        simp only [hh, hseq]
        simp only [decide_eq_false_iff_not] at hbad
        rw [if_neg hbad]
  · intro ctx engine hexId tid hp htid htidne hbad
    have hreq : requireSlots ctx ["period"] = (true, []) := by
      unfold requireSlots; simp [hp]
    have href : refFalsy (some tid) = false := by
      unfold refFalsy; simpa using htidne
    unfold state_tax_calc
    simp only [hreq, htid, href, Bool.not_true, Bool.false_eq_true, if_false]
    unfold goodShape at hbad
    rcases hh : (to_rows (engine (EngCall.taxVerify
        (slotStr (slotsGet ctx.slots "period")))).result).head? with _ | r
    · simp only [hh]
    · simp only [hh] at hbad
      rcases hseq : seqItems r with _ | xs
      · simp only [hh, hseq]
      · simp only [hseq] at hbad
        simp only [hh, hseq]
        simp only [decide_eq_false_iff_not] at hbad
        rw [if_neg hbad]

/-- Witness for C7: an engine whose result row has only two columns. -/
theorem c7_bad_shape_degraded_witness :
    (let badEngine : EngCall → EngineRes := fun _ =>
      { fixed_sql := "q", result := some (.lst [.tup [.int 1, .int 2]]) }
     let ctx : ScenarioContext :=
      { active_scenario := "PAYROLL_E2E", state := "PAYROLL_CALC",
        slots := [("period", .s "2026-01"), ("employee_scope", .s "ALL")] }
     (state_payroll_calc ctx badEngine "H1").2.1.reply =
       some (.payrollUninterpretable 4)) :=
  c7_bad_shape_degraded.1
    { active_scenario := "PAYROLL_E2E", state := "PAYROLL_CALC",
      slots := [("period", .s "2026-01"), ("employee_scope", .s "ALL")] }
    (fun _ => { fixed_sql := "q", result := some (.lst [.tup [.int 1, .int 2]]) })
    "H1" (by decide) (by decide) (by decide)

/-- Folding dictionary assignments whose keys all differ from `k` leaves
the value at `k` unchanged. -/
theorem foldl_set_get_ne (l : List (String × SlotVal))
    (s : List (String × SlotVal)) (k : String)
    (h : ∀ kv ∈ l, kv.1 ≠ k) :
    PyDict.get (l.foldl (fun acc kv => PyDict.set acc kv.1 kv.2) s) k =
      PyDict.get s k := by
  induction l generalizing s with
  | nil => rfl
  | cons hd tl ih =>
    have hhd : hd.1 ≠ k := h hd (List.mem_cons_self hd tl)
    have htl : ∀ kv ∈ tl, kv.1 ≠ k := fun kv hm => h kv (List.mem_cons_of_mem hd hm)
    simp only [List.foldl_cons]
    rw [ih (PyDict.set s hd.1 hd.2) htl]
    exact PyDict.get_set_ne s hd.1 k hd.2 (fun he => hhd he.symm)

/-- Folding dictionary assignments preserves key presence. -/
theorem foldl_set_isSome (l : List (String × SlotVal))
    (s : List (String × SlotVal)) (k : String)
    (h : (PyDict.get s k).isSome) :
    (PyDict.get (l.foldl (fun acc kv => PyDict.set acc kv.1 kv.2) s) k).isSome := by
  induction l generalizing s with
  | nil => exact h
  | cons hd tl ih =>
    simp only [List.foldl_cons]
    exact ih (PyDict.set s hd.1 hd.2) (PyDict.get_set_isSome s hd.1 k hd.2 h)

/-- Merging leaves a key untouched when the extracted slots contain no
entry for it. -/
theorem mergeSlots_get_not_extracted (s ex : List (String × SlotVal))
    (k : String) (h : slotsGet ex k = none) :
    slotsGet (mergeSlots s ex) k = slotsGet s k := by
  unfold mergeSlots slotsGet
  apply foldl_set_get_ne
  intro kv hm hk
  have hmem := List.mem_filter.mp hm
  have : ex.find? (fun kv => kv.1 = k) = none := by
    unfold slotsGet PyDict.get at h
    rcases hfind : ex.find? (fun kv => kv.1 = k) with _ | v
    · exact hfind
    · rw [hfind] at h; simp at h
  have := List.find?_eq_none.mp this kv hmem.1
  simp [hk] at this

/-- Merging never writes the `intent` or `confirm` keys. -/
theorem mergeSlots_get_reserved (s ex : List (String × SlotVal)) (k : String)
    (hk : k = "intent" ∨ k = "confirm") :
    slotsGet (mergeSlots s ex) k = slotsGet s k := by
  unfold mergeSlots slotsGet
  apply foldl_set_get_ne
  intro kv hm hkv
  have hmem := List.mem_filter.mp hm
  have hpred := hmem.2
  simp only [Bool.and_eq_true, decide_eq_true_eq, ne_eq] at hpred
  rcases hk with h | h
  · exact hpred.1 (h ▸ hkv)
  · exact hpred.2 (h ▸ hkv)

/-- Merging preserves key presence. -/
theorem mergeSlots_isSome (s ex : List (String × SlotVal)) (k : String)
    (h : (slotsGet s k).isSome) : (slotsGet (mergeSlots s ex) k).isSome := by
  unfold mergeSlots slotsGet at *
  exact foldl_set_isSome _ s k h

/-- Slot normalisation touches only the `pay_date` slot and no other
context field. -/
theorem normalize_slots_get_ne (ctx : ScenarioContext) (k : String)
    (hk : k ≠ "pay_date") :
    slotsGet (normalize_slots ctx).slots k = slotsGet ctx.slots k := by
  unfold normalize_slots
  rcases hpd : slotsGet ctx.slots "pay_date" with _ | v
  · rfl
  · rcases v with w | b
    · by_cases hst : strStarts w "__DAY__:" = true
      · by_cases hper : (slotsGet ctx.slots "period").isSome
        · simp only [hst, hper, if_true]
          unfold slotsGet slotsSet
          exact PyDict.get_set_ne _ _ _ _ hk
        · simp only [hst, if_true]
          simp [hper]
      · simp [hst]
    · rfl

theorem normalize_slots_fields (ctx : ScenarioContext) :
    (normalize_slots ctx).state = ctx.state ∧
    (normalize_slots ctx).refs = ctx.refs ∧
    (normalize_slots ctx).history = ctx.history ∧
    (normalize_slots ctx).active_scenario = ctx.active_scenario := by
  unfold normalize_slots
  rcases slotsGet ctx.slots "pay_date" with _ | v
  · refine ⟨?_, ?_, ?_, ?_⟩ <;> trivial
  · rcases v with w | b
    · by_cases hst : strStarts w "__DAY__:" = true
      · by_cases hper : (slotsGet ctx.slots "period").isSome
        · simp only [hst, hper, if_true]
          refine ⟨?_, ?_, ?_, ?_⟩ <;> trivial
        · simp only [hst, if_true]
          simp only [hper, Bool.false_eq_true, if_false]
          refine ⟨?_, ?_, ?_, ?_⟩ <;> trivial
      · simp only [hst]
        simp only [Bool.false_eq_true, if_false]
        refine ⟨?_, ?_, ?_, ?_⟩ <;> trivial
    · refine ⟨?_, ?_, ?_, ?_⟩ <;> trivial

theorem normalize_slots_isSome (ctx : ScenarioContext) (k : String)
    (h : (slotsGet ctx.slots k).isSome) :
    (slotsGet (normalize_slots ctx).slots k).isSome := by
  by_cases hk : k = "pay_date"
  · subst hk
    unfold normalize_slots
    rcases hpd : slotsGet ctx.slots "pay_date" with _ | v
    · rw [hpd] at h; simp at h
    · rcases v with w | b
      · by_cases hst : strStarts w "__DAY__:" = true
        · by_cases hper : (slotsGet ctx.slots "period").isSome
          · simp only [hst, hper, if_true]
            unfold slotsGet slotsSet
            rw [PyDict.get_set_self]
            rfl
          · simp only [hst, if_true]
            simp only [hper, Bool.false_eq_true, if_false]
            rw [hpd]; rfl
        · simp only [hst, Bool.false_eq_true, if_false]
          rw [hpd]; rfl
      · rw [hpd]; rfl
  · rw [normalize_slots_get_ne ctx k hk]; exact h

/-- Slot normalisation either leaves `pay_date` unchanged or replaces a
day-only `__DAY__:` value by a resolved full date. -/
theorem normalize_pay_date_cases (ctx : ScenarioContext) :
    slotsGet (normalize_slots ctx).slots "pay_date" =
      slotsGet ctx.slots "pay_date" ∨
    (∃ d, slotsGet ctx.slots "pay_date" = some (.s d) ∧
      strStarts d "__DAY__:" = true ∧
      (slotsGet (normalize_slots ctx).slots "pay_date").isSome = true) := by
  unfold normalize_slots
  rcases hpd : slotsGet ctx.slots "pay_date" with _ | v
  · left; rw [hpd]
  · rcases v with w | b
    · by_cases hst : strStarts w "__DAY__:" = true
      · by_cases hper : (slotsGet ctx.slots "period").isSome
        · right
          refine ⟨w, rfl, hst, ?_⟩
          simp only [hst, hper, if_true]
          unfold slotsGet slotsSet
          rw [PyDict.get_set_self]
          rfl
        · left
          simp only [hst, if_true]
          simp only [hper, Bool.false_eq_true, if_false]
          rw [hpd]
      · left
        simp only [hst, Bool.false_eq_true, if_false]
        rw [hpd]
    · left; rw [hpd]

/-- A stage jump never touches the slots (nor refs or history). -/
theorem maybe_jump_state_fields (ctx : ScenarioContext) (i : String) :
    (maybe_jump_state ctx i).slots = ctx.slots ∧
    (maybe_jump_state ctx i).refs = ctx.refs ∧
    (maybe_jump_state ctx i).history = ctx.history ∧
    (maybe_jump_state ctx i).active_scenario = ctx.active_scenario := by
  unfold maybe_jump_state
  split
  · refine ⟨?_, ?_, ?_, ?_⟩ <;> trivial
  · split
    · refine ⟨?_, ?_, ?_, ?_⟩ <;> trivial
    · split
      · refine ⟨?_, ?_, ?_, ?_⟩ <;> trivial
      · split
        · refine ⟨?_, ?_, ?_, ?_⟩ <;> trivial
        · refine ⟨?_, ?_, ?_, ?_⟩ <;> trivial

/-- Activation keeps an already-active context. -/
theorem activate_of_active (ctx : ScenarioContext)
    (h : ctx.active_scenario = ACTIVE_SCENARIO) : activate ctx = ctx := by
  unfold activate
  simp [h]

theorem journal_fill_date_get_ne (ctx : ScenarioContext) (period k : String)
    (hk : k ≠ "journal_date") :
    slotsGet (journal_fill_date ctx period).slots k = slotsGet ctx.slots k := by
  simp only [journal_fill_date]
  repeat' split
  all_goals first
    | rfl
    | (unfold slotsGet slotsSet; exact PyDict.get_set_ne _ _ _ _ hk)

theorem journal_fill_date_isSome (ctx : ScenarioContext) (period k : String)
    (h : (slotsGet ctx.slots k).isSome) :
    (slotsGet (journal_fill_date ctx period).slots k).isSome := by
  simp only [journal_fill_date]
  repeat' split
  all_goals first
    | exact h
    | (unfold slotsGet slotsSet; exact PyDict.get_set_isSome _ _ _ _ h)

theorem state_payroll_calc_slots (ctx : ScenarioContext)
    (engine : EngCall → EngineRes) (hexId : String) :
    (state_payroll_calc ctx engine hexId).1.slots = ctx.slots := by
  simp only [state_payroll_calc]
  repeat' split
  all_goals rfl

theorem state_tax_calc_slots (ctx : ScenarioContext)
    (engine : EngCall → EngineRes) (hexId : String) :
    (state_tax_calc ctx engine hexId).1.slots = ctx.slots := by
  simp only [state_tax_calc]
  repeat' split
  all_goals rfl

theorem state_done_slots (ctx : ScenarioContext) :
    (state_done ctx).1.slots = ctx.slots := rfl

theorem state_payment_run_slots_get_ne (ctx : ScenarioContext)
    (engine : EngCall → EngineRes) (hexId : String) (confirm : Option Bool)
    (k : String) (h1 : k ≠ "payment_method") :
    slotsGet (state_payment_run ctx engine hexId confirm).1.slots k =
      slotsGet ctx.slots k := by
  simp only [state_payment_run]
  repeat' split
  all_goals first
    | rfl
    | (unfold slotsGet slotsSet; exact PyDict.get_set_ne _ _ _ _ h1)

theorem state_payment_run_slots_isSome (ctx : ScenarioContext)
    (engine : EngCall → EngineRes) (hexId : String) (confirm : Option Bool)
    (k : String) (h : (slotsGet ctx.slots k).isSome) :
    (slotsGet (state_payment_run ctx engine hexId confirm).1.slots k).isSome := by
  simp only [state_payment_run]
  repeat' split
  all_goals first
    | exact h
    | (unfold slotsGet slotsSet; exact PyDict.get_set_isSome _ _ _ _ h)

theorem state_journal_post_slots_get_ne (ctx : ScenarioContext)
    (engine : EngCall → EngineRes) (hexId : String) (confirm : Option Bool)
    (k : String) (h1 : k ≠ "journal_date") (h2 : k ≠ "coa_mapping_version") :
    slotsGet (state_journal_post ctx engine hexId confirm).1.slots k =
      slotsGet ctx.slots k := by
  have hstep : ∀ v, slotsGet (slotsSet
      (journal_fill_date ctx (slotStr (slotsGet ctx.slots "period"))).slots
      "coa_mapping_version" v) k = slotsGet ctx.slots k := by
    intro v
    unfold slotsGet slotsSet
    rw [PyDict.get_set_ne _ _ _ _ h2]
    exact journal_fill_date_get_ne ctx (slotStr (slotsGet ctx.slots "period")) k h1
  simp only [state_journal_post]
  repeat' split
  all_goals first
    | rfl
    | exact journal_fill_date_get_ne ctx _ k h1
    | exact hstep _

theorem state_journal_post_slots_isSome (ctx : ScenarioContext)
    (engine : EngCall → EngineRes) (hexId : String) (confirm : Option Bool)
    (k : String) (h : (slotsGet ctx.slots k).isSome) :
    (slotsGet (state_journal_post ctx engine hexId confirm).1.slots k).isSome := by
  have hfill := journal_fill_date_isSome ctx
    (slotStr (slotsGet ctx.slots "period")) k h
  have hstep : ∀ v, (slotsGet (slotsSet
      (journal_fill_date ctx (slotStr (slotsGet ctx.slots "period"))).slots
      "coa_mapping_version" v) k).isSome := by
    intro v
    unfold slotsGet slotsSet
    exact PyDict.get_set_isSome _ _ _ _ hfill
  simp only [state_journal_post]
  repeat' split
  all_goals first
    | exact h
    | exact hfill
    | exact hstep _

theorem handle_state_slots_get_ne (ctx : ScenarioContext)
    (engine : EngCall → EngineRes) (hexId : String) (confirm : Option Bool)
    (k : String) (h1 : k ≠ "payment_method") (h2 : k ≠ "journal_date")
    (h3 : k ≠ "coa_mapping_version") :
    slotsGet (handle_state ctx engine hexId confirm).1.slots k =
      slotsGet ctx.slots k := by
  unfold handle_state
  split
  · rw [state_payroll_calc_slots]
  · split
    · rw [state_tax_calc_slots]
    · split
      · exact state_payment_run_slots_get_ne ctx engine hexId confirm k h1
      · split
        · exact state_journal_post_slots_get_ne ctx engine hexId confirm k h2 h3
        · split
          · rw [state_done_slots]
          · rw [state_payroll_calc_slots]

theorem handle_state_slots_isSome (ctx : ScenarioContext)
    (engine : EngCall → EngineRes) (hexId : String) (confirm : Option Bool)
    (k : String) (h : (slotsGet ctx.slots k).isSome) :
    (slotsGet (handle_state ctx engine hexId confirm).1.slots k).isSome := by
  unfold handle_state
  split
  · rw [state_payroll_calc_slots]; exact h
  · split
    · rw [state_tax_calc_slots]; exact h
    · split
      · exact state_payment_run_slots_isSome ctx engine hexId confirm k h
      · split
        · exact state_journal_post_slots_isSome ctx engine hexId confirm k h
        · split
          · rw [state_done_slots]; exact h
          · rw [state_payroll_calc_slots]; exact h

theorem loadCtx_storeSet (st : Store) (sid : String) (c : ScenarioContext) :
    loadCtx (storeSet st sid c) sid = c := by
  unfold loadCtx storeGet storeSet
  rw [PyDict.get_set_self]
  rfl

/-- Decomposition of a non-exit turn of an active session into the slot
pipeline followed by stage handling and the store write-back. -/
theorem route_decompose (store : Store) (sid text : String)
    (engine : EngCall → EngineRes) (hexId : String)
    (hactive : (loadCtx store sid).active_scenario = ACTIVE_SCENARIO)
    (hexit : ¬(slotsGet (extract_slots text) "intent" = some (.s "EXIT"))) :
    route_and_handle store sid text engine hexId =
      (let ctx0 := loadCtx store sid
       let ctx1 := { ctx0 with
         slots := slotsSet ctx0.slots "_last_user_text" (.s text) }
       let ctx2 := { ctx1 with
         slots := mergeSlots ctx1.slots (extract_slots text) }
       let ctx3 := normalize_slots ctx2
       let ctx4 := match slotsGet (extract_slots text) "intent" with
         | some (.s i) => maybe_jump_state ctx3 i
         | _ => ctx3
       let confirm : Option Bool :=
         match slotsGet (extract_slots text) "confirm" with
         | some (.b b) => some b
         | _ => none
       let r := handle_state ctx4 engine hexId confirm
       (storeSet store sid r.1, r.2.1, r.2.2)) := by
  unfold route_and_handle
  have htrig : is_payroll_trigger text (loadCtx store sid) = true := by
    unfold is_payroll_trigger
    rw [hactive]
    simp
  simp only [htrig, Bool.not_true, Bool.false_eq_true, if_false]
  rw [if_neg hexit, activate_of_active _ hactive]


/-- Corollary of the decomposition: on an active, non-exit turn the route
dispatches the stage handler on `turnCtx` and writes the result back. -/
theorem route_decompose_turnCtx (store : Store) (sid text : String)
    (engine : EngCall → EngineRes) (hexId : String)
    (hactive : (loadCtx store sid).active_scenario = ACTIVE_SCENARIO)
    (hexit : ¬(slotsGet (extract_slots text) "intent" = some (.s "EXIT"))) :
    route_and_handle store sid text engine hexId =
      (let confirm : Option Bool :=
         match slotsGet (extract_slots text) "confirm" with
         | some (.b b) => some b
         | _ => none
       let r := handle_state (turnCtx store sid text) engine hexId confirm
       (storeSet store sid r.1, r.2.1, r.2.2)) :=
  route_decompose store sid text engine hexId hactive hexit

/-- The TAX_CALC handler under an absent payroll ref: no engine call, no
forward advance, and the backward redirect when the period slot is
present. -/
theorem tax_calc_missing_ref (ctx : ScenarioContext)
    (engine : EngCall → EngineRes) (hexId : String)
    (hstate : ctx.state = STATE_TAX_CALC)
    (href : refFalsy ctx.refs.payroll_run_id = true) :
    (let r := state_tax_calc ctx engine hexId
     r.2.2 = [] ∧ stageIdx r.1.state ≤ stageIdx STATE_TAX_CALC ∧
     (slotFalsy (slotsGet ctx.slots "period") = false →
      r.1.state = STATE_PAYROLL_CALC ∧ r.2.1.state = some STATE_PAYROLL_CALC ∧
      r.2.1.reply = some .taxNeedPayroll)) := by
  by_cases hp : slotFalsy (slotsGet ctx.slots "period") = true
  · have hreq : requireSlots ctx ["period"] = (false, ["period"]) := by
      unfold requireSlots; simp [hp]
    unfold state_tax_calc
    simp only [hreq, Bool.not_false, if_true, hstate]
    refine ⟨by trivial, by decide, ?_⟩
    intro hcontra
    rw [hp] at hcontra
    exact absurd hcontra (by decide)
  · have hp' : slotFalsy (slotsGet ctx.slots "period") = false := by
      simpa using hp
    have hreq : requireSlots ctx ["period"] = (true, []) := by
      unfold requireSlots; simp [hp']
    unfold state_tax_calc
    simp only [hreq, href, Bool.not_true, Bool.false_eq_true, if_false,
      if_true]
    exact ⟨by trivial, by decide, fun _ => ⟨by trivial, by trivial, by trivial⟩⟩

/-- The PAYMENT_RUN handler under an absent tax ref: no engine call, no
forward advance, and the backward redirect when the period slot is
present. -/
theorem payment_run_missing_ref (ctx : ScenarioContext)
    (engine : EngCall → EngineRes) (hexId : String) (confirm : Option Bool)
    (hstate : ctx.state = STATE_PAYMENT_RUN)
    (href : refFalsy ctx.refs.tax_run_id = true) :
    (let r := state_payment_run ctx engine hexId confirm
     r.2.2 = [] ∧ stageIdx r.1.state ≤ stageIdx STATE_PAYMENT_RUN ∧
     (slotFalsy (slotsGet ctx.slots "period") = false →
      r.1.state = STATE_TAX_CALC ∧ r.2.1.state = some STATE_TAX_CALC ∧
      r.2.1.reply = some .paymentNeedTax)) := by
  by_cases hp : slotFalsy (slotsGet ctx.slots "period") = true
  · have hreq : requireSlots ctx ["period"] = (false, ["period"]) := by
      unfold requireSlots; simp [hp]
    unfold state_payment_run
    simp only [hreq, Bool.not_false, if_true, hstate]
    refine ⟨by trivial, by decide, ?_⟩
    intro hcontra
    rw [hp] at hcontra
    exact absurd hcontra (by decide)
  · have hp' : slotFalsy (slotsGet ctx.slots "period") = false := by
      simpa using hp
    have hreq : requireSlots ctx ["period"] = (true, []) := by
      unfold requireSlots; simp [hp']
    unfold state_payment_run
    simp only [hreq, href, Bool.not_true, Bool.false_eq_true, if_false,
      if_true]
    exact ⟨by trivial, by decide, fun _ => ⟨by trivial, by trivial, by trivial⟩⟩

/-- The JOURNAL_POST handler under an absent payment ref: no engine call,
no forward advance, and the backward redirect when the period slot is
present. -/
theorem journal_post_missing_ref (ctx : ScenarioContext)
    (engine : EngCall → EngineRes) (hexId : String) (confirm : Option Bool)
    (hstate : ctx.state = STATE_JOURNAL_POST)
    (href : refFalsy ctx.refs.payment_run_id = true) :
    (let r := state_journal_post ctx engine hexId confirm
     r.2.2 = [] ∧ stageIdx r.1.state ≤ stageIdx STATE_JOURNAL_POST ∧
     (slotFalsy (slotsGet ctx.slots "period") = false →
      r.1.state = STATE_PAYMENT_RUN ∧ r.2.1.state = some STATE_PAYMENT_RUN ∧
      r.2.1.reply = some .journalNeedPayment)) := by
  by_cases hp : slotFalsy (slotsGet ctx.slots "period") = true
  · have hreq : requireSlots ctx ["period"] = (false, ["period"]) := by
      unfold requireSlots; simp [hp]
    unfold state_journal_post
    simp only [hreq, Bool.not_false, if_true, hstate]
    refine ⟨by trivial, by decide, ?_⟩
    intro hcontra
    rw [hp] at hcontra
    exact absurd hcontra (by decide)
  · have hp' : slotFalsy (slotsGet ctx.slots "period") = false := by
      simpa using hp
    have hreq : requireSlots ctx ["period"] = (true, []) := by
      unfold requireSlots; simp [hp']
    unfold state_journal_post
    simp only [hreq, href, Bool.not_true, Bool.false_eq_true, if_false,
      if_true]
    exact ⟨by trivial, by decide, fun _ => ⟨by trivial, by trivial, by trivial⟩⟩

/-- Claim C2 (counterexample): a turn that jumps straight to TAX_CALC with
no prerequisite ref but also no period slot (`"공제 검증"` from an empty
session) does not set the state back to PAYROLL_CALC: the handler answers
with the missing-period prompt and the state stays TAX_CALC. -/
theorem c2_missing_ref_counterexample :
    (let r := route_and_handle [] "s" "공제 검증" engineOk "AAA111"
     (storeGet r.1 "s").map (fun c => c.refs.payroll_run_id) = some none ∧
     (storeGet r.1 "s").map (fun c => c.state) = some "TAX_CALC" ∧
     (storeGet r.1 "s").map (fun c => c.state) ≠ some "PAYROLL_CALC" ∧
     r.2.1.state = some "TAX_CALC" ∧
     r.2.1.reply = some .taxNeedPeriod ∧
     r.2.2 = []) := by
  refine ⟨rfl, rfl, by decide, rfl, rfl, rfl⟩

/-- Claim C2 (amended): a stage handler whose prerequisite ref is absent
never issues an engine call and never advances forward; and, provided the
stage's required period slot is present, it redirects the state back to
the stage that should have produced the ref (TAX_CALC to PAYROLL_CALC,
PAYMENT_RUN to TAX_CALC, JOURNAL_POST to PAYMENT_RUN) with the redirect
reply.  When the period slot is also missing, the handler instead returns
the missing-slot prompt with the state unchanged (still never advancing
and never calling the engine).  The same holds at the level of a whole
`route_and_handle` turn when the stage is reached by an explicit
intent-keyword stage jump (intents TAX, PAYMENT, JOURNAL) on an active
session whose prerequisite ref is absent: no engine call, no forward
advance, and the backward redirect whenever the merged context carries the
period slot. -/
theorem c2_no_ref_no_advance :
    (∀ (ctx : ScenarioContext) (engine : EngCall → EngineRes) (hexId : String),
      ctx.state = STATE_TAX_CALC →
      refFalsy ctx.refs.payroll_run_id = true →
      (let r := state_tax_calc ctx engine hexId
       r.2.2 = [] ∧ stageIdx r.1.state ≤ stageIdx STATE_TAX_CALC ∧
       (slotFalsy (slotsGet ctx.slots "period") = false →
        r.1.state = STATE_PAYROLL_CALC ∧ r.2.1.state = some STATE_PAYROLL_CALC ∧
        r.2.1.reply = some .taxNeedPayroll))) ∧
    (∀ (ctx : ScenarioContext) (engine : EngCall → EngineRes) (hexId : String)
       (confirm : Option Bool),
      ctx.state = STATE_PAYMENT_RUN →
      refFalsy ctx.refs.tax_run_id = true →
      (let r := state_payment_run ctx engine hexId confirm
       r.2.2 = [] ∧ stageIdx r.1.state ≤ stageIdx STATE_PAYMENT_RUN ∧
       (slotFalsy (slotsGet ctx.slots "period") = false →
        r.1.state = STATE_TAX_CALC ∧ r.2.1.state = some STATE_TAX_CALC ∧
        r.2.1.reply = some .paymentNeedTax))) ∧
    (∀ (ctx : ScenarioContext) (engine : EngCall → EngineRes) (hexId : String)
       (confirm : Option Bool),
      ctx.state = STATE_JOURNAL_POST →
      refFalsy ctx.refs.payment_run_id = true →
      (let r := state_journal_post ctx engine hexId confirm
       r.2.2 = [] ∧ stageIdx r.1.state ≤ stageIdx STATE_JOURNAL_POST ∧
       (slotFalsy (slotsGet ctx.slots "period") = false →
        r.1.state = STATE_PAYMENT_RUN ∧ r.2.1.state = some STATE_PAYMENT_RUN ∧
        r.2.1.reply = some .journalNeedPayment))) ∧
    (∀ (store : Store) (sid text : String) (engine : EngCall → EngineRes)
       (hexId : String),
      (loadCtx store sid).active_scenario = ACTIVE_SCENARIO →
      slotsGet (extract_slots text) "intent" = some (.s "TAX") →
      refFalsy (loadCtx store sid).refs.payroll_run_id = true →
      (let r := route_and_handle store sid text engine hexId
       r.2.2 = [] ∧
       stageIdx (loadCtx r.1 sid).state ≤ stageIdx STATE_TAX_CALC ∧
       (slotFalsy (slotsGet (turnCtx store sid text).slots "period") = false →
        (loadCtx r.1 sid).state = STATE_PAYROLL_CALC ∧
        r.2.1.state = some STATE_PAYROLL_CALC ∧
        r.2.1.reply = some .taxNeedPayroll))) ∧
    (∀ (store : Store) (sid text : String) (engine : EngCall → EngineRes)
       (hexId : String),
      (loadCtx store sid).active_scenario = ACTIVE_SCENARIO →
      slotsGet (extract_slots text) "intent" = some (.s "PAYMENT") →
      refFalsy (loadCtx store sid).refs.tax_run_id = true →
      (let r := route_and_handle store sid text engine hexId
       r.2.2 = [] ∧
       stageIdx (loadCtx r.1 sid).state ≤ stageIdx STATE_PAYMENT_RUN ∧
       (slotFalsy (slotsGet (turnCtx store sid text).slots "period") = false →
        (loadCtx r.1 sid).state = STATE_TAX_CALC ∧
        r.2.1.state = some STATE_TAX_CALC ∧
        r.2.1.reply = some .paymentNeedTax))) ∧
    (∀ (store : Store) (sid text : String) (engine : EngCall → EngineRes)
       (hexId : String),
      (loadCtx store sid).active_scenario = ACTIVE_SCENARIO →
      slotsGet (extract_slots text) "intent" = some (.s "JOURNAL") →
      refFalsy (loadCtx store sid).refs.payment_run_id = true →
      (let r := route_and_handle store sid text engine hexId
       r.2.2 = [] ∧
       stageIdx (loadCtx r.1 sid).state ≤ stageIdx STATE_JOURNAL_POST ∧
       (slotFalsy (slotsGet (turnCtx store sid text).slots "period") = false →
        (loadCtx r.1 sid).state = STATE_PAYMENT_RUN ∧
        r.2.1.state = some STATE_PAYMENT_RUN ∧
        r.2.1.reply = some .journalNeedPayment))) := by
  refine ⟨tax_calc_missing_ref, payment_run_missing_ref,
    journal_post_missing_ref, ?_, ?_, ?_⟩
  · intro store sid text engine hexId hactive hintent href
    have hexit : ¬(slotsGet (extract_slots text) "intent" =
        some (.s "EXIT")) := by
      rw [hintent]; decide
    have htcs : (turnCtx store sid text).state = STATE_TAX_CALC := by
      simp only [turnCtx, hintent]
      rfl
    have htcr : (turnCtx store sid text).refs = (loadCtx store sid).refs := by
      simp only [turnCtx, hintent]
      rw [(maybe_jump_state_fields _ _).2.1, (normalize_slots_fields _).2.1]
    have hdisp : ∀ cf, handle_state (turnCtx store sid text) engine hexId cf =
        state_tax_calc (turnCtx store sid text) engine hexId := by
      intro cf
      unfold handle_state
      rw [htcs]
      rfl
    have hh := tax_calc_missing_ref (turnCtx store sid text) engine hexId htcs
      (by rw [htcr]; exact href)
    rw [route_decompose_turnCtx store sid text engine hexId hactive hexit]
    simp only [hdisp]
    refine ⟨hh.1, ?_, ?_⟩
    · rw [loadCtx_storeSet]
      exact hh.2.1
    · intro hp
      refine ⟨?_, (hh.2.2 hp).2.1, (hh.2.2 hp).2.2⟩
      rw [loadCtx_storeSet]
      exact (hh.2.2 hp).1
  · intro store sid text engine hexId hactive hintent href
    have hexit : ¬(slotsGet (extract_slots text) "intent" =
        some (.s "EXIT")) := by
      rw [hintent]; decide
    have htcs : (turnCtx store sid text).state = STATE_PAYMENT_RUN := by
      simp only [turnCtx, hintent]
      rfl
    have htcr : (turnCtx store sid text).refs = (loadCtx store sid).refs := by
      simp only [turnCtx, hintent]
      rw [(maybe_jump_state_fields _ _).2.1, (normalize_slots_fields _).2.1]
    have hdisp : ∀ cf, handle_state (turnCtx store sid text) engine hexId cf =
        state_payment_run (turnCtx store sid text) engine hexId cf := by
      intro cf
      unfold handle_state
      rw [htcs]
      rfl
    have hh := fun cf => payment_run_missing_ref (turnCtx store sid text)
      engine hexId cf htcs (by rw [htcr]; exact href)
    rw [route_decompose_turnCtx store sid text engine hexId hactive hexit]
    simp only [hdisp]
    refine ⟨(hh _).1, ?_, ?_⟩
    · rw [loadCtx_storeSet]
      exact (hh _).2.1
    · intro hp
      refine ⟨?_, ((hh _).2.2 hp).2.1, ((hh _).2.2 hp).2.2⟩
      rw [loadCtx_storeSet]
      exact ((hh _).2.2 hp).1
  · intro store sid text engine hexId hactive hintent href
    have hexit : ¬(slotsGet (extract_slots text) "intent" =
        some (.s "EXIT")) := by
      rw [hintent]; decide
    have htcs : (turnCtx store sid text).state = STATE_JOURNAL_POST := by
      simp only [turnCtx, hintent]
      rfl
    have htcr : (turnCtx store sid text).refs = (loadCtx store sid).refs := by
      simp only [turnCtx, hintent]
      rw [(maybe_jump_state_fields _ _).2.1, (normalize_slots_fields _).2.1]
    have hdisp : ∀ cf, handle_state (turnCtx store sid text) engine hexId cf =
        state_journal_post (turnCtx store sid text) engine hexId cf := by
      intro cf
      unfold handle_state
      rw [htcs]
      rfl
    have hh := fun cf => journal_post_missing_ref (turnCtx store sid text)
      engine hexId cf htcs (by rw [htcr]; exact href)
    rw [route_decompose_turnCtx store sid text engine hexId hactive hexit]
    simp only [hdisp]
    refine ⟨(hh _).1, ?_, ?_⟩
    · rw [loadCtx_storeSet]
      exact (hh _).2.1
    · intro hp
      refine ⟨?_, ((hh _).2.2 hp).2.1, ((hh _).2.2 hp).2.2⟩
      rw [loadCtx_storeSet]
      exact ((hh _).2.2 hp).1

/-- Witness for the amended C2 theorem: a TAX_CALC context with the period
slot present but no payroll run id is redirected back to PAYROLL_CALC with
no engine call; and a whole routed turn that jumps to TAX_CALC by the tax
intent keyword (`"1월 공제 검증"`) from an active session without a
payroll ref is likewise redirected. -/
theorem c2_no_ref_no_advance_witness :
    (let ctx : ScenarioContext :=
      { active_scenario := "PAYROLL_E2E", state := "TAX_CALC",
        slots := [("period", .s "2026-01")] }
     let r := state_tax_calc ctx engineOk "H1"
     r.2.2 = [] ∧ r.1.state = "PAYROLL_CALC" ∧
     r.2.1.reply = some .taxNeedPayroll) ∧
    (let store : Store := [("s",
      { active_scenario := "PAYROLL_E2E", state := "PAYROLL_CALC" })]
     let r := route_and_handle store "s" "1월 공제 검증" engineOk "H1"
     r.2.2 = [] ∧ (loadCtx r.1 "s").state = "PAYROLL_CALC" ∧
     r.2.1.reply = some .taxNeedPayroll) :=
  have h1 := c2_no_ref_no_advance.1
    { active_scenario := "PAYROLL_E2E", state := "TAX_CALC",
      slots := [("period", .s "2026-01")] }
    engineOk "H1" rfl (by decide)
  have h2 := c2_no_ref_no_advance.2.2.2.1
    [("s", { active_scenario := "PAYROLL_E2E", state := "PAYROLL_CALC" })]
    "s" "1월 공제 검증" engineOk "H1" rfl (by decide) (by decide)
  ⟨⟨h1.1, (h1.2.2 (by decide)).1, (h1.2.2 (by decide)).2.2⟩,
   ⟨h2.1, (h2.2.2 (by decide)).1, (h2.2.2 (by decide)).2.2⟩⟩


/-- Claim C5 (counterexample): a day-only pay date stored in one turn
(`"25일 지급"`, stored as `__DAY__:25`) is rewritten in a later turn that
extracts no pay-date value at all (`"1월 급여"` merely supplies the
period), so a stored slot value does change without a later message
extracting a new value for that key. -/
theorem c5_pay_date_rewrite_counterexample :
    (let s1 := (route_and_handle [] "s" "25일 지급" engineOk "AAA111").1
     let s2 := (route_and_handle s1 "s" "1월 급여" engineOk "BBB222").1
     (storeGet s1 "s").map (fun c => slotsGet c.slots "pay_date") =
       some (some (.s "__DAY__:25")) ∧
     slotsGet (extract_slots "1월 급여") "pay_date" = none ∧
     (storeGet s2 "s").map (fun c => slotsGet c.slots "pay_date") =
       some (some (.s "2026-01-25"))) :=
  ⟨rfl, by decide, rfl⟩

/-- Claim C5 (amended): within one active scenario, on any turn whose
message does not carry the EXIT intent: every stored slot key remains
present; the `intent` and `confirm` keys are never stored; `period` and
`employee_scope` change only when the message extracts a new value for
them; and `pay_date`, when the message extracts no pay-date value, either
stays unchanged or is rewritten from a pending day-only `__DAY__:` value
by the normalisation step once a period is available.  (The handlers may
additionally fill the `payment_method`, `journal_date` and
`coa_mapping_version` defaults, and `_last_user_text` is refreshed every
turn.) -/
theorem c5_slot_persistence_amended (store : Store) (sid text : String)
    (engine : EngCall → EngineRes) (hexId : String)
    (hactive : (loadCtx store sid).active_scenario = ACTIVE_SCENARIO)
    (hexit : ¬(slotsGet (extract_slots text) "intent" = some (.s "EXIT"))) :
    (let ctx0 := loadCtx store sid
     let ctx1 := loadCtx (route_and_handle store sid text engine hexId).1 sid
     (∀ k, (k = "period" ∨ k = "employee_scope") →
        slotsGet (extract_slots text) k = none →
        slotsGet ctx1.slots k = slotsGet ctx0.slots k) ∧
     ((slotsGet ctx0.slots "intent" = none →
        slotsGet ctx1.slots "intent" = none) ∧
      (slotsGet ctx0.slots "confirm" = none →
        slotsGet ctx1.slots "confirm" = none)) ∧
     (∀ k, (slotsGet ctx0.slots k).isSome = true →
        (slotsGet ctx1.slots k).isSome = true) ∧
     (slotsGet (extract_slots text) "pay_date" = none →
      (slotsGet ctx1.slots "pay_date" = slotsGet ctx0.slots "pay_date" ∨
       ∃ d, slotsGet ctx0.slots "pay_date" = some (.s d) ∧
         strStarts d "__DAY__:" = true ∧
         (slotsGet ctx1.slots "pay_date").isSome = true))) := by
  have hdecomp := route_decompose store sid text engine hexId hactive hexit
  set ctx0 := loadCtx store sid with hctx0
  set ctxA : ScenarioContext := { ctx0 with
    slots := slotsSet ctx0.slots "_last_user_text" (.s text) } with hctxA
  set ctxB : ScenarioContext := { ctxA with
    slots := mergeSlots ctxA.slots (extract_slots text) } with hctxB
  set ctxC := normalize_slots ctxB with hctxC
  set ctxD : ScenarioContext := (match slotsGet (extract_slots text) "intent" with
    | some (.s i) => maybe_jump_state ctxC i
    | _ => ctxC) with hctxD
  set confV : Option Bool := (match slotsGet (extract_slots text) "confirm" with
    | some (.b b) => some b
    | _ => none) with hconf
  have hload : loadCtx (route_and_handle store sid text engine hexId).1 sid =
      (handle_state ctxD engine hexId confV).1 := by
    rw [hdecomp]
    exact loadCtx_storeSet store sid _
  have hDslots : ctxD.slots = ctxC.slots := by
    rw [hctxD]
    rcases slotsGet (extract_slots text) "intent" with _ | v
    · rfl
    · rcases v with i | b
      · exact (maybe_jump_state_fields ctxC i).1
      · rfl
  have hBget : ∀ k, k ≠ "_last_user_text" →
      slotsGet (extract_slots text) k = none →
      slotsGet ctxB.slots k = slotsGet ctx0.slots k := by
    intro k hk hex
    rw [hctxB]
    show slotsGet (mergeSlots ctxA.slots (extract_slots text)) k =
      slotsGet ctx0.slots k
    rw [mergeSlots_get_not_extracted _ _ _ hex, hctxA]
    show slotsGet (slotsSet ctx0.slots "_last_user_text" (.s text)) k =
      slotsGet ctx0.slots k
    unfold slotsGet slotsSet
    exact PyDict.get_set_ne _ _ _ _ hk
  have hBres : ∀ k, (k = "intent" ∨ k = "confirm") →
      slotsGet ctxB.slots k = slotsGet ctx0.slots k := by
    intro k hk
    rw [hctxB]
    show slotsGet (mergeSlots ctxA.slots (extract_slots text)) k =
      slotsGet ctx0.slots k
    rw [mergeSlots_get_reserved _ _ _ hk, hctxA]
    show slotsGet (slotsSet ctx0.slots "_last_user_text" (.s text)) k =
      slotsGet ctx0.slots k
    unfold slotsGet slotsSet
    refine PyDict.get_set_ne _ _ _ _ ?_
    rcases hk with h | h <;> rw [h] <;> decide
  have hBsome : ∀ k, (slotsGet ctx0.slots k).isSome = true →
      (slotsGet ctxB.slots k).isSome = true := by
    intro k h
    rw [hctxB]
    show (slotsGet (mergeSlots ctxA.slots (extract_slots text)) k).isSome = true
    apply mergeSlots_isSome
    rw [hctxA]
    show (slotsGet (slotsSet ctx0.slots "_last_user_text" (.s text)) k).isSome = true
    unfold slotsGet slotsSet
    exact PyDict.get_set_isSome _ _ _ _ h
  rw [hload]
  refine ⟨?_, ⟨?_, ?_⟩, ?_, ?_⟩
  · intro k hk hex
    have hk3 : k ≠ "payment_method" ∧ k ≠ "journal_date" ∧
        k ≠ "coa_mapping_version" ∧ k ≠ "pay_date" ∧ k ≠ "_last_user_text" := by
      rcases hk with h | h <;> rw [h] <;> exact ⟨by decide, by decide, by decide,
        by decide, by decide⟩
    rw [handle_state_slots_get_ne ctxD engine hexId confV k hk3.1 hk3.2.1
      hk3.2.2.1, hDslots, hctxC, normalize_slots_get_ne ctxB k hk3.2.2.2.1]
    exact hBget k hk3.2.2.2.2 hex
  · intro h0
    rw [handle_state_slots_get_ne ctxD engine hexId confV "intent"
      (by decide) (by decide) (by decide), hDslots, hctxC,
      normalize_slots_get_ne ctxB "intent" (by decide),
      hBres "intent" (Or.inl rfl)]
    exact h0
  · intro h0
    rw [handle_state_slots_get_ne ctxD engine hexId confV "confirm"
      (by decide) (by decide) (by decide), hDslots, hctxC,
      normalize_slots_get_ne ctxB "confirm" (by decide),
      hBres "confirm" (Or.inr rfl)]
    exact h0
  · intro k h0
    apply handle_state_slots_isSome
    rw [hDslots, hctxC]
    apply normalize_slots_isSome
    exact hBsome k h0
  · intro hex
    have hB0 : slotsGet ctxB.slots "pay_date" = slotsGet ctx0.slots "pay_date" :=
      hBget "pay_date" (by decide) hex
    have hfoot := handle_state_slots_get_ne ctxD engine hexId confV "pay_date"
      (by decide) (by decide) (by decide)
    rcases normalize_pay_date_cases ctxB with hsame | ⟨d, hd1, hd2, hd3⟩
    · left
      rw [hfoot, hDslots, hctxC, hsame]
      exact hB0
    · right
      refine ⟨d, by rw [← hB0]; exact hd1, hd2, ?_⟩
      apply handle_state_slots_isSome
      rw [hDslots, hctxC]
      exact hd3

/-- Witness for the amended C5 theorem: turn `"1월 급여"` on a session
whose context holds `employee_scope` and a `confirm`-free slot map. -/
theorem c5_slot_persistence_amended_witness :
    (let st : Store := [("s",
      { active_scenario := "PAYROLL_E2E", state := "PAYMENT_RUN",
        slots := [("employee_scope", .s "ALL"), ("pay_date", .s "2026-01-25")],
        refs := { payroll_run_id := some "PR_1", tax_run_id := some "TX_1" } })]
     let ctx1 := loadCtx (route_and_handle st "s" "1월 급여" engineOk "H1").1 "s"
     slotsGet ctx1.slots "employee_scope" = some (.s "ALL") ∧
     slotsGet ctx1.slots "intent" = none ∧
     (slotsGet ctx1.slots "pay_date").isSome = true) := by
  have h := c5_slot_persistence_amended
    [("s", { active_scenario := "PAYROLL_E2E", state := "PAYMENT_RUN",
             slots := [("employee_scope", .s "ALL"), ("pay_date", .s "2026-01-25")],
             refs := { payroll_run_id := some "PR_1", tax_run_id := some "TX_1" } })]
    "s" "1월 급여" engineOk "H1" (by decide) (by decide)
  refine ⟨?_, ?_, ?_⟩
  · have := h.1 "employee_scope" (Or.inr rfl) (by decide)
    rw [this]
    decide
  · exact h.2.1.1 (by decide)
  · exact h.2.2.1 "pay_date" (by decide)

theorem rpc_get_ctx_storeSet (st : AppHrSql.RpcStore) (sid : String)
    (c : AppHrSql.RpcContext) :
    AppHrSql.rpc_get_ctx (AppHrSql.rpcStoreSet st sid c) sid = c := by
  unfold AppHrSql.rpc_get_ctx AppHrSql.rpcStoreGet AppHrSql.rpcStoreSet
  rw [PyDict.get_set_self]
  rfl

theorem rpc_get_ctx_storeClear (st : AppHrSql.RpcStore) (sid : String) :
    AppHrSql.rpcStoreGet (AppHrSql.rpcStoreClear st sid) sid = none := by
  unfold AppHrSql.rpcStoreGet AppHrSql.rpcStoreClear
  exact PyDict.get_erase_self st sid

theorem refsNonempty_of_payroll (r : AppHrSql.RpcRefs)
    (h : AppHrSql.refTruthy r.payroll_run_id = true) :
    AppHrSql.refsNonempty r = true := by
  unfold AppHrSql.refTruthy at h
  unfold AppHrSql.refsNonempty
  rcases hp : r.payroll_run_id with _ | v
  · rw [hp] at h; simp at h
  · simp

set_option maxHeartbeats 2000000 in
/-- Whenever the payroll run id is stored, the query side channel resolves
a target and produces an answer. -/
theorem rpc_answer_query_some (ctx : AppHrSql.RpcContext) (text : String)
    (db : AppHrSql.SqlQuery → PyVal)
    (h : AppHrSql.refTruthy ctx.refs.payroll_run_id = true) :
    (AppHrSql.rpc_answer_query_from_refs ctx text db).isSome = true := by
  simp only [AppHrSql.rpc_answer_query_from_refs]
  repeat' split
  all_goals simp_all

/-- Claim C6 (counterexample): in the PayrollScenario, a DONE-stage
message that parses to confirm=false does not clear the context; the
handler ignores confirm, emits the cross-stage summary, and the session
record (with all its refs) remains in the store, merely soft-cleared. -/
theorem c6_done_decline_counterexample :
    (let st : Store := [("s",
      { active_scenario := "PAYROLL_E2E", state := "DONE",
        slots := [("period", .s "2026-01"), ("employee_scope", .s "ALL")],
        refs := { payroll_run_id := some "A", tax_run_id := some "B",
                  payment_run_id := some "C", journal_run_id := some "D" } })]
     let r := route_and_handle st "s" "아니오" engineOk "H1"
     extract_confirm "아니오" = some false ∧
     r.2.1.reply = some (.doneSummary (some (.s "2026-01"))
       (some (.s "emp:아니오")) (some "A") (some "B") (some "C") (some "D")) ∧
     (storeGet r.1 "s").map (fun c => c.refs.payroll_run_id) = some (some "A") ∧
     (storeGet r.1 "s").isSome = true) :=
  ⟨by decide, rfl, rfl, rfl⟩

/-- Claim C6 (amended): in the PayrollScenario the DONE handler ignores
confirm: it always emits the full cross-stage summary built from the
stored slots and refs, then soft-clears (empties `active_scenario` and
`state`, keeping slots/refs/history in the store) with no engine call.
The confirm-gated behaviour the claim describes holds in the RPC
orchestrator `rpc_run`: in stage DONE (for a message that is not an exit
keyword and not a query), confirm=true emits the summary built from the
refs and then clears the session, and confirm=false clears the session
with an acknowledgement. -/
theorem c6_done_stage_behavior :
    (∀ (ctx : ScenarioContext) (engine : EngCall → EngineRes) (hexId : String)
       (confirm : Option Bool),
      ctx.state = STATE_DONE →
      (let r := handle_state ctx engine hexId confirm
       r.2.1.reply = some (.doneSummary (slotsGet ctx.slots "period")
         (slotsGet ctx.slots "employee_scope") ctx.refs.payroll_run_id
         ctx.refs.tax_run_id ctx.refs.payment_run_id ctx.refs.journal_run_id) ∧
       r.1.active_scenario = "" ∧ r.1.state = "" ∧ r.1.refs = ctx.refs ∧
       r.1.slots = ctx.slots ∧ r.2.2 = [])) ∧
    (∀ (store : AppHrSql.RpcStore) (sid text : String)
       (db : AppHrSql.SqlQuery → PyVal),
      (AppHrSql.rpc_get_ctx store sid).active_scenario = AppHrSql.RPC_ACTIVE →
      (AppHrSql.rpc_get_ctx store sid).state = AppHrSql.S_DONE →
      Re.reTestAny AppHrSql.patsRpcExit text = false →
      AppHrSql.is_query_intent text = false →
      ((AppHrSql.extract_confirm text = some true →
        (AppHrSql.rpc_run store sid text db).2.reply = some
          (.doneSummary (AppHrSql.rpc_get_ctx store sid).refs.payroll_run_id
            (AppHrSql.rpc_get_ctx store sid).refs.tax_run_id
            (AppHrSql.rpc_get_ctx store sid).refs.payment_run_id
            (AppHrSql.rpc_get_ctx store sid).refs.journal_run_id) ∧
        AppHrSql.rpcStoreGet (AppHrSql.rpc_run store sid text db).1 sid = none) ∧
       (AppHrSql.extract_confirm text = some false →
        (AppHrSql.rpc_run store sid text db).2.reply = some .doneDeclined ∧
        AppHrSql.rpcStoreGet (AppHrSql.rpc_run store sid text db).1 sid = none))) := by
  constructor
  · intro ctx engine hexId confirm hstate
    unfold handle_state
    simp only [hstate, STATE_DONE, STATE_PAYROLL_CALC, STATE_TAX_CALC,
      STATE_PAYMENT_RUN, STATE_JOURNAL_POST]
    norm_num
    unfold state_done
    refine ⟨?_, ?_, ?_, ?_, ?_, ?_⟩ <;> trivial
  · intro store sid text db hactive hstate hnoexit hnoquery
    constructor
    · intro hconf
      unfold AppHrSql.rpc_run
      simp +decide only [hnoexit, hactive, hstate, hnoquery, hconf,
        AppHrSql.RPC_ACTIVE, AppHrSql.S_DONE, AppHrSql.S_PAYROLL,
        AppHrSql.S_TAX, AppHrSql.S_PAYMENT, AppHrSql.S_JOURNAL,
        Bool.false_and, Bool.and_false, Bool.false_eq_true, if_false, if_true,
        ite_self, decide_False, Bool.not_false, Bool.not_true]
      exact ⟨by trivial, rpc_get_ctx_storeClear store sid⟩
    · intro hconf
      unfold AppHrSql.rpc_run
      simp +decide only [hnoexit, hactive, hstate, hnoquery, hconf,
        AppHrSql.RPC_ACTIVE, AppHrSql.S_DONE, AppHrSql.S_PAYROLL,
        AppHrSql.S_TAX, AppHrSql.S_PAYMENT, AppHrSql.S_JOURNAL,
        Bool.false_and, Bool.and_false, Bool.false_eq_true, if_false, if_true,
        ite_self, decide_False, Bool.not_false, Bool.not_true]
      exact ⟨by trivial, rpc_get_ctx_storeClear store sid⟩

/-- Witness for the amended C6 theorem: a concrete DONE context on the
scenario side, and a concrete rpc DONE session answering `"예"` and
`"아니오"`. -/
theorem c6_done_stage_behavior_witness :
    (let ctx : ScenarioContext :=
      { active_scenario := "PAYROLL_E2E", state := "DONE",
        slots := [("period", .s "2026-01")],
        refs := { payroll_run_id := some "A", tax_run_id := some "B",
                  payment_run_id := some "C", journal_run_id := some "D" } }
     (handle_state ctx engineOk "H1" (some false)).2.1.reply =
       some (.doneSummary (some (.s "2026-01")) none (some "A") (some "B")
         (some "C") (some "D"))) ∧
    (let st : AppHrSql.RpcStore := [("s",
      { active_scenario := "PAYROLL_RPC", state := "DONE",
        refs := { payroll_run_id := some "A", tax_run_id := some "B",
                  payment_run_id := some "C", journal_run_id := some "D" } })]
     let db : AppHrSql.SqlQuery → PyVal := fun _ => .nonev
     (AppHrSql.rpc_run st "s" "예" db).2.reply =
       some (.doneSummary (some "A") (some "B") (some "C") (some "D")) ∧
     AppHrSql.rpcStoreGet (AppHrSql.rpc_run st "s" "예" db).1 "s" = none ∧
     (AppHrSql.rpc_run st "s" "아니오" db).2.reply = some .doneDeclined ∧
     AppHrSql.rpcStoreGet (AppHrSql.rpc_run st "s" "아니오" db).1 "s" = none) := by
  constructor
  · exact (c6_done_stage_behavior.1
      { active_scenario := "PAYROLL_E2E", state := "DONE",
        slots := [("period", .s "2026-01")],
        refs := { payroll_run_id := some "A", tax_run_id := some "B",
                  payment_run_id := some "C", journal_run_id := some "D" } }
      engineOk "H1" (some false) rfl).1
  · have hy := (c6_done_stage_behavior.2
      [("s", { active_scenario := "PAYROLL_RPC", state := "DONE",
               refs := { payroll_run_id := some "A", tax_run_id := some "B",
                         payment_run_id := some "C", journal_run_id := some "D" } })]
      "s" "예" (fun _ => .nonev) rfl rfl (by decide) (by decide)).1 (by decide)
    have hn := (c6_done_stage_behavior.2
      [("s", { active_scenario := "PAYROLL_RPC", state := "DONE",
               refs := { payroll_run_id := some "A", tax_run_id := some "B",
                         payment_run_id := some "C", journal_run_id := some "D" } })]
      "s" "아니오" (fun _ => .nonev) rfl rfl (by decide) (by decide)).2 (by decide)
    exact ⟨hy.1, hy.2, hn.1, hn.2⟩

/-- Claim C9 (counterexample): the message `"취소 내역 조회"` matches the
query-intent keywords, matches no execute-intent keyword, carries no
confirmation token, and arrives while the context holds completed-stage
refs — yet the router does not answer from the refs and does not preserve
the state: the leading exit-keyword check clears the whole session
first. -/
theorem c9_exit_preempts_query_counterexample :
    (let st : AppHrSql.RpcStore := [("s",
      { active_scenario := "PAYROLL_RPC", state := "TAX",
        slots := [("period", .s "2026-01"), ("scope", .s "ALL")],
        refs := { payroll_run_id := some "RID-P", tax_run_id := some "RID-T" } })]
     let db : AppHrSql.SqlQuery → PyVal := fun _ => .nonev
     let r := AppHrSql.rpc_run st "s" "취소 내역 조회" db
     AppHrSql.is_query_intent "취소 내역 조회" = true ∧
     AppHrSql.is_execute_intent "취소 내역 조회" = false ∧
     AppHrSql.extract_confirm "취소 내역 조회" = none ∧
     AppHrSql.refsNonempty (AppHrSql.rpc_get_ctx st "s").refs = true ∧
     r.2.reply = some .exitReply ∧
     AppHrSql.rpcStoreGet r.1 "s" = none ∧
     (AppHrSql.rpc_get_ctx st "s").state = "TAX") :=
  ⟨by decide, by decide, by decide, rfl, rfl, rfl, rfl⟩

/-- Claim C9 (amended): for a message that matches the query-intent
keywords, carries no confirmation token, and contains no exit keyword,
arriving while the active context holds the payroll run ref, the router
answers directly through the stored-refs side channel and writes the
context back unmodified, so the state after the turn equals the state
before it. -/
theorem c9_query_side_channel (store : AppHrSql.RpcStore) (sid text : String)
    (db : AppHrSql.SqlQuery → PyVal)
    (hactive : (AppHrSql.rpc_get_ctx store sid).active_scenario =
      AppHrSql.RPC_ACTIVE)
    (hnoexit : Re.reTestAny AppHrSql.patsRpcExit text = false)
    (hquery : AppHrSql.is_query_intent text = true)
    (hconf : AppHrSql.extract_confirm text = none)
    (hpayroll : AppHrSql.refTruthy
      (AppHrSql.rpc_get_ctx store sid).refs.payroll_run_id = true) :
    ∃ qr, AppHrSql.rpc_answer_query_from_refs (AppHrSql.rpc_get_ctx store sid)
        text db = some qr ∧
      AppHrSql.rpc_run store sid text db =
        (AppHrSql.rpcStoreSet store sid (AppHrSql.rpc_get_ctx store sid),
         { handled := true, reply := some qr.1,
           state := some (AppHrSql.rpc_get_ctx store sid).state,
           suggestions := ["전체 프로세스 요약", "시나리오 종료"],
           rpc_sqls := qr.2 }) ∧
      (AppHrSql.rpc_get_ctx (AppHrSql.rpc_run store sid text db).1 sid).state =
        (AppHrSql.rpc_get_ctx store sid).state := by
  have hsome := rpc_answer_query_some (AppHrSql.rpc_get_ctx store sid) text db
    hpayroll
  rcases hq : AppHrSql.rpc_answer_query_from_refs (AppHrSql.rpc_get_ctx store sid)
      text db with _ | qr
  · rw [hq] at hsome; simp at hsome
  · refine ⟨qr, rfl, ?_⟩
    have hne := refsNonempty_of_payroll _ hpayroll
    have hrun : AppHrSql.rpc_run store sid text db =
        (AppHrSql.rpcStoreSet store sid (AppHrSql.rpc_get_ctx store sid),
         { handled := true, reply := some qr.1,
           state := some (AppHrSql.rpc_get_ctx store sid).state,
           suggestions := ["전체 프로세스 요약", "시나리오 종료"],
           rpc_sqls := qr.2 }) := by
      unfold AppHrSql.rpc_run
      simp +decide only [hnoexit, hactive, hquery, hconf, hne, hq,
        AppHrSql.RPC_ACTIVE, Bool.false_eq_true, if_false, if_true,
        Bool.and_true, Bool.true_and, Bool.not_false, Bool.not_true]
    refine ⟨hrun, ?_⟩
    rw [hrun]
    rw [rpc_get_ctx_storeSet]

/-- Witness for the amended C9 theorem on a concrete session asking
`"공제 결과 조회"`. -/
theorem c9_query_side_channel_witness :
    (let st : AppHrSql.RpcStore := [("s",
      { active_scenario := "PAYROLL_RPC", state := "TAX",
        slots := [("period", .s "2026-01"), ("scope", .s "ALL")],
        refs := { payroll_run_id := some "RID-P", tax_run_id := some "RID-T" } })]
     let db : AppHrSql.SqlQuery → PyVal := fun _ => .nonev
     ∃ qr, AppHrSql.rpc_answer_query_from_refs (AppHrSql.rpc_get_ctx st "s")
         "공제 결과 조회" db = some qr ∧
       (AppHrSql.rpc_get_ctx (AppHrSql.rpc_run st "s" "공제 결과 조회" db).1
         "s").state = "TAX") := by
  have h := c9_query_side_channel
    [("s", { active_scenario := "PAYROLL_RPC", state := "TAX",
             slots := [("period", .s "2026-01"), ("scope", .s "ALL")],
             refs := { payroll_run_id := some "RID-P",
                       tax_run_id := some "RID-T" } })]
    "s" "공제 결과 조회" (fun _ => .nonev) rfl (by decide) (by decide)
    (by decide) (by decide)
  rcases h with ⟨qr, h1, h2, h3⟩
  exact ⟨qr, h1, h3⟩

end ClaimTheorems
